import Mathlib

/-!
# F_Year hostel-cleaning portal: shallow embedding of the React front end

The definitions below transcribe the pure parts of the page components under
`FYP/frontend/src` (form validation, derived values, conditional rendering and
the event handlers' request traces).  JavaScript strings are Lean strings,
objects used as dictionaries are association lists in insertion order, and the
browser facilities the code calls (`Date`, `window.confirm`, the REST client) are
explicit parameters.
-/

namespace FYear

/-! ## Regular expressions of the form validators

Every pattern in the source has the shape `/^ t₁ t₂ … tₙ $/` where each `tᵢ` is a
single-character matcher (`\d`, `[A-Z]` or a literal) with an optional exact
repetition count `{k}`.  There is no `m` flag, so `^` and `$` only match at the
two ends of the input. -/

/-- Single-character matchers occurring in the source patterns. -/
inductive Atom where
  | digit
  | upper
  | lit (c : Char)
  deriving DecidableEq, Repr

/-- Does the matcher accept the character?  `\d` is `[0-9]`, `[A-Z]` the ASCII capitals. -/
def Atom.accepts : Atom → Char → Bool
  | .digit, c => c.isDigit
  | .upper, c => c.isUpper
  | .lit a, c => c == a

/-- An anchored pattern: a sequence of matchers, each with its repetition count. -/
abbrev Pattern := List (Atom × Nat)

/-- Consume exactly `n` characters accepted by `a`; the rest of the input is returned. -/
def matchTerm (a : Atom) : Nat → List Char → Option (List Char)
  | 0, cs => some cs
  | _ + 1, [] => none
  | n + 1, c :: cs => if a.accepts c then matchTerm a n cs else none

/-- Match the terms of a pattern one after the other from the start of the input. -/
def matchSeq : Pattern → List Char → Option (List Char)
  | [], cs => some cs
  | (a, n) :: ts, cs =>
    match matchTerm a n cs with
    | some rest => matchSeq ts rest
    | none => none

/-- The matchers of a pattern written out one per input character. -/
def Pattern.expand : Pattern → List Atom
  | [] => []
  | (a, n) :: ts => List.replicate n a ++ Pattern.expand ts

/-- The JavaScript call `/^…$/.test(s)`: the whole input must be consumed. -/
def Pattern.test (p : Pattern) (s : String) : Bool :=
  matchSeq p s.toList == some []

/-- The pattern `/^\d{2}[A-Z]$/` (Register.js line 56, BookService.js line 49). -/
def blockPattern : Pattern := [(.digit, 2), (.upper, 1)]

/-- The pattern `/^\d{2}[A-Z]-\d{2}-\d{2}$/` (Register.js line 60, BookService.js line 53). -/
def roomPattern : Pattern :=
  [(.digit, 2), (.upper, 1), (.lit '-', 1), (.digit, 2), (.lit '-', 1), (.digit, 2)]

/-- The pattern `/^AIU\d{8}$/` (Register.js line 52). -/
def studentIdPattern : Pattern :=
  [(.lit 'A', 1), (.lit 'I', 1), (.lit 'U', 1), (.digit, 8)]

/-! ## Error dictionaries -/

/-- A JavaScript object used as a dictionary from field names to messages. -/
abbrev ErrorMap := List (String × String)

/-- The assignment `obj[key] = value`. -/
def ErrorMap.set : ErrorMap → String → String → ErrorMap
  | [], k, v => [(k, v)]
  | (k', v') :: rest, k, v =>
    if k' = k then (k, v) :: rest else (k', v') :: ErrorMap.set rest k v

/-- The keys of the object, `Object.keys(obj)`. -/
def ErrorMap.keys (m : ErrorMap) : List String := m.map Prod.fst

/-- Whether the object has the property `k`. -/
def ErrorMap.hasKey (m : ErrorMap) (k : String) : Bool := m.keys.contains k

/-! ## Formats as the specification words them -/

/-- Exactly two decimal digits followed by one uppercase ASCII letter. -/
def IsBlockFormat (s : String) : Prop :=
  ∃ d₁ d₂ u : Char, s.toList = [d₁, d₂, u] ∧
    d₁.isDigit = true ∧ d₂.isDigit = true ∧ u.isUpper = true

/-- Two digits, one uppercase letter, `-`, two digits, `-`, two digits. -/
def IsRoomFormat (s : String) : Prop :=
  ∃ d₁ d₂ u f₁ f₂ r₁ r₂ : Char, s.toList = [d₁, d₂, u, '-', f₁, f₂, '-', r₁, r₂] ∧
    d₁.isDigit = true ∧ d₂.isDigit = true ∧ u.isUpper = true ∧
    f₁.isDigit = true ∧ f₂.isDigit = true ∧ r₁.isDigit = true ∧ r₂.isDigit = true

/-- The letters `AIU` followed by exactly eight decimal digits. -/
def IsStudentIdFormat (s : String) : Prop :=
  ∃ ds : List Char, s.toList = 'A' :: 'I' :: 'U' :: ds ∧ ds.length = 8 ∧
    ∀ d ∈ ds, d.isDigit = true

/-! ## Register.js -/

/-- The `studentData` state of the registration page. -/
structure StudentData where
  name : String
  email : String
  password : String
  confirm_password : String
  student_id : String
  block : String
  room_number : String
  phone : String

/-- `validateStudentForm` (Register.js lines 45–66): the error object passed to
`setErrors` and the returned boolean. -/
def validateStudentForm (studentData : StudentData) : ErrorMap × Bool :=
  let newErrors : ErrorMap := []
  let newErrors :=
    if studentData.password ≠ studentData.confirm_password then
      newErrors.set "confirm_password" "Passwords do not match"
    else newErrors
  let newErrors :=
    if !studentIdPattern.test studentData.student_id then
      newErrors.set "student_id"
        "Student ID must be in format: AIU followed by 8 digits (e.g., AIU23102325)"
    else newErrors
  let newErrors :=
    if !blockPattern.test studentData.block then
      newErrors.set "block"
        "Block must be in format: 2 digits followed by 1 uppercase letter (e.g., 25E)"
    else newErrors
  let newErrors :=
    if !roomPattern.test studentData.room_number then
      newErrors.set "room_number" "Room number must be in format: 25E-04-10"
    else newErrors
  (newErrors, newErrors.keys.length == 0)

/-! ## BookService.js -/

/-- The `formData` state of the booking page. -/
structure BookingForm where
  booking_type : String
  preferred_date : String
  preferred_time : String
  urgency_level : String
  block : String
  room_number : String
  special_instructions : String

/-- The browser facilities `validateForm` reads.  `dateParse s` is the time value of
`new Date(s)` in milliseconds since the epoch (`none` for an invalid date, whose time
value is `NaN`), `now` is the time value of `new Date()`, and `offsetMinutes` is how far
local time is ahead of UTC. -/
structure Browser where
  dateParse : String → Option Int
  now : Int
  offsetMinutes : Int

/-- Milliseconds in a day. -/
def msPerDay : Int := 86400000

/-- The local calendar day (days since the epoch) on which the instant `now` falls. -/
def Browser.localDay (env : Browser) : Int :=
  (env.now + env.offsetMinutes * 60000) / msPerDay

/-- The time value of `today` after `today.setHours(0, 0, 0, 0)`: local midnight. -/
def Browser.today (env : Browser) : Int :=
  env.localDay * msPerDay - env.offsetMinutes * 60000

/-- The comparison `a < b` of two `Date` objects: false as soon as one is invalid. -/
def dateLt : Option Int → Option Int → Bool
  | some a, some b => decide (a < b)
  | _, _ => false

/-- `validateForm` (BookService.js lines 46–68): the error object passed to `setErrors`
and the returned boolean. -/
def validateForm (env : Browser) (formData : BookingForm) : ErrorMap × Bool :=
  let newErrors : ErrorMap := []
  let newErrors :=
    if !blockPattern.test formData.block then
      newErrors.set "block" "Block must be in format: 25E"
    else newErrors
  let newErrors :=
    if !roomPattern.test formData.room_number then
      newErrors.set "room_number" "Room number must be in format: 25E-04-10"
    else newErrors
  let selectedDate := env.dateParse formData.preferred_date
  let today := some env.today
  let newErrors :=
    if dateLt selectedDate today then
      newErrors.set "preferred_date" "Date cannot be in the past"
    else newErrors
  (newErrors, newErrors.keys.length == 0)

/-- A `Date` parser that knows the date-only string `2025-06-01`, which denotes UTC
midnight of that day (day 20240 of the epoch). -/
def parseJuneFirst (s : String) : Option Int :=
  if s = "2025-06-01" then some 1748736000000 else none

/-- A browser at UTC+8 whose clock shows noon of 2025-06-01 local time. -/
def clockEast : Browser :=
  { dateParse := parseJuneFirst, now := 1748750400000, offsetMinutes := 480 }

/-- A browser at UTC-4 whose clock shows noon of 2025-06-01 local time. -/
def clockWest : Browser :=
  { dateParse := parseJuneFirst, now := 1748793600000, offsetMinutes := -240 }

/-- A booking form filled in for 2025-06-01 with a well-formed block and room. -/
def juneForm : BookingForm :=
  { booking_type := "DEEP", preferred_date := "2025-06-01", preferred_time := "10:00",
    urgency_level := "NORMAL", block := "25E", room_number := "25E-04-10",
    special_instructions := "" }

/-- A registration form whose four checked fields are all well-formed. -/
def sampleStudent : StudentData :=
  { name := "Aisha", email := "aisha@example.org", password := "s3cret",
    confirm_password := "s3cret", student_id := "AIU23102325", block := "25E",
    room_number := "25E-04-10", phone := "" }

/-- `servicePrice` (BookService.js line 95). -/
def servicePrice (formData : BookingForm) : Nat :=
  if formData.booking_type = "DEEP" then 30 else 20

/-- `String.prototype.padStart(targetLength, padString)` with a one-character pad. -/
def padStart (s : String) (targetLength : Nat) (pad : Char) : String :=
  String.mk (List.replicate (targetLength - s.length) pad) ++ s

/-- The two entries pushed by one iteration of the slot loop (BookService.js lines 36–37). -/
def hourSlots (hour : Nat) : List String :=
  [padStart (toString hour) 2 '0' ++ ":00", padStart (toString hour) 2 '0' ++ ":30"]

/-- The loop `for (let hour = 8; hour < 24; hour++)` of BookService.js lines 35–38, started
at the given value of `hour` with the slots pushed so far. -/
def timeSlotsLoop (hour : Nat) (timeSlots : List String) : List String :=
  if hour < 24 then timeSlotsLoop (hour + 1) (timeSlots ++ hourSlots hour) else timeSlots
termination_by 24 - hour

/-- The array `timeSlots` after the loop (BookService.js lines 34–38). -/
def timeSlots : List String := timeSlotsLoop 8 []

/-- The initial value of `formData.preferred_time` (BookService.js line 16). -/
def defaultPreferredTime : String := "08:00"

/-- The slot label of a time of day given in minutes after midnight, `HH:MM`. -/
def slotLabel (minutes : Nat) : String :=
  padStart (toString (minutes / 60)) 2 '0' ++ ":" ++ padStart (toString (minutes % 60)) 2 '0'

/-- The time of day a label `HH:MM` denotes, in minutes after midnight. -/
def slotMinutes (s : String) : Nat :=
  match s.toList with
  | [h₁, h₂, ':', m₁, m₂] =>
    ((h₁.toNat - 48) * 10 + (h₂.toNat - 48)) * 60 + ((m₁.toNat - 48) * 10 + (m₂.toNat - 48))
  | _ => 0

/-! ## Bookings and requests -/

/-- A booking record as the server delivers it (the fields the screens below read). -/
structure Booking where
  id : Nat
  booking_type : String
  status : String
  payment_status : String
  assigned_cleaner_name : Option String

/-- An uploaded file (`File` object of the browser). -/
structure File where
  name : String
  deriving DecidableEq, Repr

/-- Requests of `bookingAPI` and `cleanerAPI` (api.js lines 73–100) issued by the handlers. -/
inductive Request where
  | list
  | myBookings
  | todayTasks
  | updateStatus (id : Nat) (status : String)
  | markOfflinePayment (id : Nat)
  | uploadPaymentReceipt (id : Nat) (formData : List (String × File))
  deriving DecidableEq, Repr

/-- JavaScript truthiness of an optional string: `null`, `undefined` and `''` are falsy. -/
def truthy : Option String → Bool
  | some s => s != ""
  | none => false

/-! ## MyBookings.js -/

/-- The condition guarding the `Cancel` button of a booking card (MyBookings.js line 219). -/
def cardCancelOffered (booking : Booking) : Bool :=
  ["PENDING", "ASSIGNED"].contains booking.status

/-- The condition guarding the `Cancel Booking` button of the details modal
(MyBookings.js lines 237 and 320): the modal itself needs `modalOpen && selectedBooking`. -/
def modalCancelOffered (modalOpen : Bool) (selectedBooking : Option Booking) : Bool :=
  match modalOpen, selectedBooking with
  | true, some booking => ["PENDING", "ASSIGNED"].contains booking.status
  | _, _ => false

/-- `handleCancelBooking` (MyBookings.js lines 55–68): the requests it issues, given the
answer to `window.confirm` and whether the status update succeeds. -/
def handleCancelBooking (confirmed updateSucceeds : Bool) (bookingId : Nat) : List Request :=
  if !confirmed then []
  else if updateSucceeds then [.updateStatus bookingId "CANCELLED", .myBookings]
  else [.updateStatus bookingId "CANCELLED"]

/-! ## BookingsManagement.js -/

/-- Controls of the actions cell of a booking row. -/
inductive Control where
  | assignButton (label : String)
  | statusSelect (value : String) (options : List String)
  deriving DecidableEq, Repr

/-- The `<option>` values of the status dropdown (BookingsManagement.js lines 232–235). -/
def statusSelectOptions (status : String) : List String :=
  [status]
    ++ (if status = "PENDING" then ["CANCELLED"] else [])
    ++ (if status = "ASSIGNED" then ["IN_PROGRESS", "CANCELLED"] else [])
    ++ (if status = "IN_PROGRESS" then ["COMPLETED"] else [])

/-- The actions cell of a booking row (BookingsManagement.js lines 221–238). -/
def actionsCell (booking : Booking) : List Control :=
  (if booking.status ≠ "COMPLETED" ∧ booking.status ≠ "CANCELLED" then
      [.assignButton (if truthy booking.assigned_cleaner_name then "Reassign" else "Assign")]
    else [])
    ++ (if booking.status ≠ "COMPLETED" ∧ booking.status ≠ "CANCELLED" then
      [.statusSelect booking.status (statusSelectOptions booking.status)]
    else [])

/-- `handleStatusUpdate` (BookingsManagement.js lines 78–87): the requests it issues. -/
def handleStatusUpdate (updateSucceeds : Bool) (bookingId : Nat) (newStatus : String) :
    List Request :=
  if updateSucceeds then [.updateStatus bookingId newStatus, .list]
  else [.updateStatus bookingId newStatus]

/-- The status values the dropdown of a row can hand to `handleStatusUpdate`: the values
of its options. -/
def adminStatusOffers (booking : Booking) : List String :=
  (actionsCell booking).flatMap fun c =>
    match c with
    | .statusSelect _ options => options
    | .assignButton _ => []

/-! ## TodayTasks.js -/

/-- A button of a task card: its label, whether it is disabled, and the status its click
passes to `handleStatusChange`. -/
structure TaskButton where
  label : String
  disabled : Bool
  newStatus : String
  deriving DecidableEq, Repr

/-- The status buttons of a task card (TodayTasks.js lines 120–137). -/
def taskButtons (updatingStatus : Option Nat) (task : Booking) : List TaskButton :=
  (if task.status = "ASSIGNED" then
      [{ label := if updatingStatus = some task.id then "Updating..." else "Start",
         disabled := decide (updatingStatus = some task.id),
         newStatus := "IN_PROGRESS" }]
    else [])
    ++ (if task.status = "IN_PROGRESS" then
      [{ label := if updatingStatus = some task.id then "Updating..." else "Complete",
         disabled := decide (updatingStatus = some task.id),
         newStatus := "COMPLETED" }]
    else [])

/-- `handleStatusChange` (TodayTasks.js lines 39–51): the requests it issues. -/
def handleStatusChange (updateSucceeds : Bool) (taskId : Nat) (newStatus : String) :
    List Request :=
  if updateSucceeds then [.updateStatus taskId newStatus, .todayTasks]
  else [.updateStatus taskId newStatus]

/-- Modelled from the spec: the edges of the booking state machine of section 4.1, which the
back end (not part of the sources) enforces. -/
def specEdges : List (String × String) :=
  [("PENDING", "WAITING_FOR_CLEANER"), ("PENDING", "ASSIGNED"), ("PENDING", "CANCELLED"),
   ("WAITING_FOR_CLEANER", "ASSIGNED"), ("WAITING_FOR_CLEANER", "CANCELLED"),
   ("ASSIGNED", "IN_PROGRESS"), ("ASSIGNED", "CANCELLED"),
   ("IN_PROGRESS", "COMPLETED")]

/-- Modelled from the spec: whether `s → t` is a legal status change of section 4.1. -/
def transitionAllowed (s t : String) : Bool := specEdges.contains (s, t)

/-! ## PaymentSection.js -/

/-- The component state of `PaymentSection` (lines 5–7). -/
structure PaymentState where
  loading : Bool
  selectedFile : Option File
  showOnlinePayment : Bool
  deriving DecidableEq, Repr

/-- The interactive elements of the payment panel. -/
inductive PayControl where
  | offlinePaymentButton (disabled : Bool)
  | onlinePaymentButton (disabled : Bool)
  | receiptInput
  | paymentDoneButton (disabled : Bool)
  | backButton
  deriving DecidableEq, Repr

/-- What `PaymentSection` renders (lines 9–12 and 68–147): `none` for `return null`,
otherwise the controls of the panel. -/
def PaymentSection.render (booking : Booking) (st : PaymentState) : Option (List PayControl) :=
  if booking.status ≠ "COMPLETED" ∨ booking.payment_status = "PAID" then none
  else if !st.showOnlinePayment then
    some [.offlinePaymentButton st.loading, .onlinePaymentButton st.loading]
  else
    some [.receiptInput, .paymentDoneButton (st.loading || st.selectedFile.isNone), .backButton]

/-- How the receipt upload ends: a response carrying the updated booking, a response
without a `data` object, or a rejection with the server's `error` text when there is one. -/
inductive UploadOutcome where
  | ok (booking : Booking)
  | okWithoutData
  | failed (serverError : Option String)

/-- Observable steps of a payment handler. -/
inductive Effect where
  | alert (message : String)
  | request (r : Request)
  | paymentComplete (bookingId : Nat)
  deriving DecidableEq, Repr

/-- `handleUploadReceipt` (PaymentSection.js lines 43–66): the component state when the
handler has finished and the effects in order.  `hasCallback` says whether the parent
passed `onPaymentComplete`. -/
def handleUploadReceipt (booking : Booking) (hasCallback : Bool) (server : UploadOutcome)
    (st : PaymentState) : PaymentState × List Effect :=
  match st.selectedFile with
  | none => (st, [.alert "Please select a receipt file"])
  | some file =>
    let st := { st with loading := true }
    let formData := [("receipt", file)]
    let sent := Effect.request (.uploadPaymentReceipt booking.id formData)
    match server with
    | .ok updated =>
      let st := { st with showOnlinePayment := false, selectedFile := none }
      ({ st with loading := false },
        [sent, .alert "Payment receipt uploaded successfully"]
          ++ (if hasCallback then [.paymentComplete updated.id] else []))
    | .okWithoutData =>
      if hasCallback then
        -- reading `response.data.booking` throws; the `catch` block reports it
        ({ st with loading := false },
          [sent, .alert "Payment receipt uploaded successfully",
            .alert "Failed to upload receipt"])
      else
        let st := { st with showOnlinePayment := false, selectedFile := none }
        ({ st with loading := false }, [sent, .alert "Payment receipt uploaded successfully"])
    | .failed serverError =>
      ({ st with loading := false },
        [sent, .alert (if truthy serverError then serverError.getD "" else "Failed to upload receipt")])

/-- The requests among the effects of a handler run. -/
def requestsOf (effects : List Effect) : List Request :=
  effects.filterMap fun e =>
    match e with
    | .request r => some r
    | _ => none

/-! ## Sample records -/

/-- A booking that waits for a cleaner to be assigned. -/
def pendingBooking : Booking :=
  { id := 7, booking_type := "DEEP", status := "PENDING", payment_status := "PENDING",
    assigned_cleaner_name := none }

/-- A booking with a cleaner named on it. -/
def assignedBooking : Booking :=
  { id := 8, booking_type := "STANDARD", status := "ASSIGNED", payment_status := "PENDING",
    assigned_cleaner_name := some "Siti" }

/-- A finished booking that is still to be paid. -/
def completedUnpaid : Booking :=
  { id := 9, booking_type := "DEEP", status := "COMPLETED", payment_status := "PENDING",
    assigned_cleaner_name := some "Siti" }

/-- A receipt image picked in the file input. -/
def receiptFile : File := { name := "receipt.png" }

/-- The payment panel with the online branch open and a receipt selected. -/
def receiptChosen : PaymentState :=
  { loading := false, selectedFile := some receiptFile, showOnlinePayment := true }

/-- The payment panel with the online branch open and no receipt selected. -/
def noReceiptChosen : PaymentState :=
  { loading := false, selectedFile := none, showOnlinePayment := true }

/-! ## Maintenance.js -/

/-- A toast message of a page (`setToast({ message, type })`). -/
structure Toast where
  message : String
  type : String
  deriving DecidableEq, Repr

/-- An issue record as the server delivers it (the fields the page reads). -/
structure Issue where
  id : Nat
  booking : Nat
  issue_type : String
  description : String
  status : String
  deriving DecidableEq, Repr

/-- A status button of an issue: its label and the status its click passes to
`handleStatusUpdate`. -/
structure IssueAction where
  label : String
  newStatus : String
  deriving DecidableEq, Repr

/-- The `formData` state of the issue report page (ReportIssues.js lines 12–17). -/
structure IssueForm where
  booking : String
  issue_type : String
  description : String
  photo_url : String
  deriving DecidableEq, Repr

/-- Requests of `issueAPI` and of `cleanerAPI.allTasks` (api.js lines 96–110). -/
inductive IssueRequest where
  | list
  | allTasks
  | create (data : IssueForm)
  | updateStatus (id : Nat) (status : String)
  deriving DecidableEq, Repr

/-- The status buttons of an issue card (Maintenance.js lines 170–184). -/
def Maintenance.listActions (issue : Issue) : List IssueAction :=
  (if issue.status = "OPEN" then [{ label := "Start Working", newStatus := "IN_PROGRESS" }]
    else [])
    ++ (if issue.status = "IN_PROGRESS" then
      [{ label := "Mark Resolved", newStatus := "RESOLVED" }] else [])
    ++ (if issue.status = "RESOLVED" then [{ label := "Close Issue", newStatus := "CLOSED" }]
      else [])

/-- The status buttons of the detail modal (Maintenance.js lines 202 and 243–257); the
modal is rendered for `showDetailModal && selectedIssue`. -/
def Maintenance.modalActions (showDetailModal : Bool) (selectedIssue : Option Issue) :
    List IssueAction :=
  match showDetailModal, selectedIssue with
  | true, some selectedIssue =>
    (if selectedIssue.status = "OPEN" then
        [{ label := "Start Working", newStatus := "IN_PROGRESS" }] else [])
      ++ (if selectedIssue.status = "IN_PROGRESS" then
        [{ label := "Mark as Resolved", newStatus := "RESOLVED" }] else [])
      ++ (if selectedIssue.status = "RESOLVED" then
        [{ label := "Close Issue", newStatus := "CLOSED" }] else [])
  | _, _ => []

/-- `handleStatusUpdate` of the maintenance page (Maintenance.js lines 45–55): the requests
it issues. -/
def Maintenance.handleStatusUpdate (updateSucceeds : Bool) (issueId : Nat)
    (newStatus : String) : List IssueRequest :=
  if updateSucceeds then [.updateStatus issueId newStatus, .list]
  else [.updateStatus issueId newStatus]

/-- The `onClick` of a status button of an issue (Maintenance.js lines 171, 176, 181 in
the list, 244, 249, 254 in the detail modal): `handleStatusUpdate(issue.id, newStatus)`
with the status of the button. -/
def Maintenance.onClick (updateSucceeds : Bool) (issue : Issue) (action : IssueAction) :
    List IssueRequest :=
  Maintenance.handleStatusUpdate updateSucceeds issue.id action.newStatus

/-- Modelled from the spec: the issue lifecycle OPEN → IN_PROGRESS → RESOLVED → CLOSED of
sections 3 and 4.5, as the position of a status in it (the back end that enforces it is
not part of the sources). -/
def issueRank (status : String) : Option Nat :=
  ["OPEN", "IN_PROGRESS", "RESOLVED", "CLOSED"].indexOf? status

/-- Modelled from the spec: `t` is the status one step after `s` in the issue lifecycle. -/
def issueSuccessor (s t : String) : Prop :=
  ∃ n, issueRank s = some n ∧ issueRank t = some (n + 1)

/-! ## Notifications.js -/

/-- A notification record. -/
structure Notification where
  id : Nat
  title : String
  message : String
  is_read : Bool
  created_at : String
  deriving DecidableEq, Repr

/-- `markAsRead` (Notifications.js lines 39–48): the `notifications` state afterwards and
the toast it sets, given whether the server call succeeds. -/
def Notifications.markAsRead (serverOk : Bool) (id : Nat) (notifications : List Notification) :
    List Notification × Option Toast :=
  if serverOk then
    (notifications.map fun n => if n.id = id then { n with is_read := true } else n, none)
  else
    (notifications, some { message := "Failed to mark as read", type := "error" })

/-- `markAllAsRead` (Notifications.js lines 50–58). -/
def Notifications.markAllAsRead (serverOk : Bool) (notifications : List Notification) :
    List Notification × Option Toast :=
  if serverOk then
    (notifications.map fun n => { n with is_read := true },
      some { message := "All notifications marked as read", type := "success" })
  else
    (notifications, some { message := "Failed to mark all as read", type := "error" })

/-- `unreadCount` (Notifications.js line 60). -/
def Notifications.unreadCount (notifications : List Notification) : Nat :=
  (notifications.filter fun n => !n.is_read).length

/-! ## ReportIssues.js -/

/-- `fetchBookings` (ReportIssues.js lines 33–47): the `bookings` state afterwards, given
the tasks of the response (`none` when the request fails). -/
def ReportIssues.fetchBookings (response : Option (List Booking)) (bookings : List Booking) :
    List Booking :=
  match response with
  | some data =>
    data.filter fun booking => ["ASSIGNED", "IN_PROGRESS", "COMPLETED"].contains booking.status
  | none => bookings

/-- The values of the task dropdown (ReportIssues.js lines 127–132): the empty placeholder
and one option per booking of the state. -/
def ReportIssues.taskOptions (bookings : List Booking) : List String :=
  "" :: bookings.map fun booking => toString booking.id

/-- `handleSubmit` of the issue report page (ReportIssues.js lines 55–88): the requests it
issues and the toast it sets.  `createError` is `none` when the create request succeeds and
otherwise the text the `catch` block extracts from the response, if any. -/
def ReportIssues.handleSubmit (createError : Option (Option String)) (formData : IssueForm) :
    List IssueRequest × Toast :=
  if formData.booking = "" then
    ([], { message := "Please select a task/booking", type := "error" })
  else if formData.description = "" then
    ([], { message := "Please provide a description", type := "error" })
  else
    match createError with
    | none => ([.create formData], { message := "Issue reported successfully", type := "success" })
    | some text =>
      ([.create formData],
        { message := if truthy text then text.getD "" else "Failed to report issue",
          type := "error" })

/-! ## Accepting a request (server side) -/

/-- Modelled from the spec: the part of a booking row the pull assignment of section 4.2
reads and writes (the back end behind `POST /cleaner/bookings/{id}/accept/` is not part of
the sources). -/
structure ServerBooking where
  status : String
  assigned_cleaner : Option Nat
  deriving DecidableEq, Repr

/-- Modelled from the spec: the errors of `accept`. -/
inductive AcceptError where
  | alreadyAssigned
  deriving DecidableEq, Repr

/-- Modelled from the spec: `accept(bookingId, cleanerId)` of section 4.2 as one atomic
conditional update: a booking that is `PENDING` or `WAITING_FOR_CLEANER` becomes `ASSIGNED`
with the cleaner bound; any other booking is left as it is and the caller receives
`AlreadyAssignedError`. -/
def accept (booking : ServerBooking) (cleanerId : Nat) :
    ServerBooking × Except AcceptError Unit :=
  if booking.status = "PENDING" ∨ booking.status = "WAITING_FOR_CLEANER" then
    ({ status := "ASSIGNED", assigned_cleaner := some cleanerId }, .ok ())
  else (booking, .error .alreadyAssigned)

/-- Modelled from the spec: two concurrent `accept` calls.  Each call is one transaction
(section 5), so the two are committed in one of the two orders; `firstWins` says whether the
call of cleaner `a` is committed first.  The result is the final booking, the outcome for
`a` and the outcome for `b`. -/
def acceptConcurrently (firstWins : Bool) (booking : ServerBooking) (a b : Nat) :
    ServerBooking × Except AcceptError Unit × Except AcceptError Unit :=
  if firstWins then
    let ra := accept booking a
    let rb := accept ra.1 b
    (rb.1, ra.2, rb.2)
  else
    let rb := accept booking b
    let ra := accept rb.1 a
    (ra.1, ra.2, rb.2)

/-! ## Profile.js -/

/-- The `formData` state of the profile page (Profile.js lines 13–18). -/
structure ProfileForm where
  name : String
  phone : String
  block : String
  room_number : String
  deriving DecidableEq, Repr

/-- Requests of `profileAPI` (api.js lines 130–135) issued by the profile page. -/
inductive ProfileRequest where
  | getStudent
  | updateStudent (data : ProfileForm)
  deriving DecidableEq, Repr

/-- `handleSubmit` of the profile page (Profile.js lines 56–100): the requests it issues
and the toast it sets.  `updateError` is `none` when the update succeeds and otherwise the
first text the `catch` block finds in the response, if any. -/
def Profile.handleSubmit (updateError : Option (Option String)) (formData : ProfileForm) :
    List ProfileRequest × Toast :=
  if !blockPattern.test formData.block then
    ([], { message := "Block must be in format: 25E (2 digits + 1 capital letter)",
           type := "error" })
  else if !roomPattern.test formData.room_number then
    ([], { message := "Room must be in format: 25E-04-10", type := "error" })
  else
    match updateError with
    | none =>
      ([.updateStudent formData, .getStudent],
        { message := "Profile updated successfully", type := "success" })
    | some text =>
      ([.updateStudent formData],
        { message := if truthy text then text.getD "" else "Failed to update profile",
          type := "error" })

/-- The text under the room input of the profile page (Profile.js line 362). -/
def Profile.roomHint : String := "Format: Block-Floor-Room (e.g., 25E-04-10)"

/-! ## api.js -/

/-- The browser's `localStorage`: keys and values in insertion order. -/
abbrev LocalStorage := List (String × String)

/-- The call `localStorage.getItem(key)`; `none` stands for `null`. -/
def LocalStorage.getItem (store : LocalStorage) (key : String) : Option String :=
  store.lookup key

/-- The call `localStorage.setItem(key, value)`. -/
def LocalStorage.setItem : LocalStorage → String → String → LocalStorage
  | [], key, value => [(key, value)]
  | (k, v) :: rest, key, value =>
    if k = key then (key, value) :: rest else (k, v) :: LocalStorage.setItem rest key value

/-- The call `localStorage.removeItem(key)`. -/
def LocalStorage.removeItem (store : LocalStorage) (key : String) : LocalStorage :=
  store.filter fun entry => entry.1 != key

/-- The globals of the page that api.js and AuthContext.js touch. -/
structure Page where
  localStorage : LocalStorage
  location : String
  deriving DecidableEq, Repr

/-- The part of an axios request config the interceptors read and write. -/
structure RequestConfig where
  url : String
  data : List (String × String)
  authorization : Option String
  _retry : Bool
  deriving DecidableEq, Repr

/-- A failed exchange as the server side produces it: `response?.status` and
`response?.data?.error`, both absent when there is no response at all. -/
structure Failure where
  status : Option Nat
  error : Option String
  deriving DecidableEq, Repr

/-- The `error` object handed to a rejection handler. -/
structure AxiosError where
  status : Option Nat
  error : Option String
  config : RequestConfig
  deriving DecidableEq, Repr

/-- The back end as seen from the client: the answer to a request sent through the `api`
instance and the answer of `POST /auth/token/refresh/` to a refresh token. -/
structure Server (α : Type) where
  respond : RequestConfig → Except Failure α
  refresh : Option String → Except Failure String

/-- Exchanges with the back end. -/
inductive NetCall where
  | refresh (refreshToken : Option String)
  | send (config : RequestConfig)
  deriving DecidableEq, Repr

/-- How a request through `api` settles: the page globals afterwards, the value the
promise resolves with or the error it rejects with, and the exchanges made in order. -/
structure Settled (α : Type) where
  page : Page
  result : Except AxiosError α
  calls : List NetCall

/-- The constant `API_BASE_URL` (api.js line 3). -/
def API_BASE_URL : String := "http://localhost:8000/api"

/-- The config of the bare `axios.post` that asks for a new access token (api.js line 39);
a missing refresh token is sent as `null`. -/
def refreshConfig (refreshToken : Option String) : RequestConfig :=
  { url := API_BASE_URL ++ "/auth/token/refresh/",
    data := [("refresh", refreshToken.getD "null")],
    authorization := none, _retry := false }

/-- The request interceptor (api.js lines 14–21). -/
def requestInterceptor (page : Page) (config : RequestConfig) : RequestConfig :=
  let token := page.localStorage.getItem "access_token"
  if truthy token then { config with authorization := some ("Bearer " ++ token.getD "") }
  else config

mutual

/-- A call `api(config)`: request interceptor, exchange, response interceptors
(api.js lines 6–60). -/
def api {α : Type} (server : Server α) (page : Page) (config : RequestConfig) : Settled α :=
  let sent := requestInterceptor page config
  match server.respond sent with
  | .ok response => { page := page, result := .ok response, calls := [.send sent] }
  | .error failure =>
    let settled :=
      onRejected server page { status := failure.status, error := failure.error, config := sent }
    { settled with calls := .send sent :: settled.calls }
termination_by (if config._retry then 1 else 3)
decreasing_by
  simp only [requestInterceptor]
  split_ifs <;> simp_all

/-- The rejection handler of the response interceptor (api.js lines 30–59). -/
def onRejected {α : Type} (server : Server α) (page : Page) (error : AxiosError) : Settled α :=
  let originalRequest := error.config
  if _h : error.status = some 401 ∧ originalRequest._retry = false then
    let originalRequest := { originalRequest with _retry := true }
    let refreshToken := page.localStorage.getItem "refresh_token"
    match server.refresh refreshToken with
    | .ok access =>
      let page := { page with localStorage := page.localStorage.setItem "access_token" access }
      let originalRequest := { originalRequest with authorization := some ("Bearer " ++ access) }
      let settled := api server page originalRequest
      { settled with calls := .refresh refreshToken :: settled.calls }
    | .error refreshError =>
      let store := page.localStorage.removeItem "access_token"
      let store := store.removeItem "refresh_token"
      let store := store.removeItem "user"
      { page := { localStorage := store, location := "/login" },
        result := .error { status := refreshError.status, error := refreshError.error,
                           config := refreshConfig refreshToken },
        calls := [.refresh refreshToken] }
  else
    { page := page, result := .error error, calls := [] }
termination_by (if error.config._retry then 0 else 2)
decreasing_by
  have hretry : error.config._retry = false := _h.2
  simp [hretry]

end

/-- The config that reaches the server when a request is replayed after a successful
refresh: the original one marked `_retry`, with the new header, passed through the request
interceptor again. -/
def replayConfig (page : Page) (error : AxiosError) (access : String) : RequestConfig :=
  requestInterceptor
    { page with localStorage := page.localStorage.setItem "access_token" access }
    { error.config with _retry := true, authorization := some ("Bearer " ++ access) }

/-- The refresh calls among the exchanges. -/
def refreshCalls (calls : List NetCall) : List (Option String) :=
  calls.filterMap fun c =>
    match c with
    | .refresh token => some token
    | .send _ => none

/-- The requests sent through `api` among the exchanges. -/
def sentConfigs (calls : List NetCall) : List RequestConfig :=
  calls.filterMap fun c =>
    match c with
    | .send config => some config
    | .refresh _ => none

/-! ## AuthContext.js -/

/-- The user object of a login response. -/
structure User where
  id : Nat
  name : String
  email : String
  role : String
  deriving DecidableEq, Repr

/-- The `data` of a successful login response. -/
structure LoginData where
  user : User
  access : String
  refresh : String
  deriving DecidableEq, Repr

/-- The value `login` returns: `{ success: true, user }` or `{ success: false, error }`. -/
inductive LoginResult where
  | success (user : User)
  | failure (error : String)
  deriving DecidableEq, Repr

/-- The config of `authAPI.login({ email, password, role })` (api.js line 66). -/
def AuthContext.loginRequest (email password role : String) : RequestConfig :=
  { url := "/auth/login/", data := [("email", email), ("password", password), ("role", role)],
    authorization := none, _retry := false }

/-- What a call of `login` leaves behind: page globals, context user, returned value. -/
structure LoginOutcome where
  page : Page
  user : Option User
  result : LoginResult

/-- `login` (AuthContext.js lines 21–36).  `stringify` is `JSON.stringify` on user objects
and `user` the context user before the call. -/
def AuthContext.login (server : Server LoginData) (stringify : User → String) (page : Page)
    (user : Option User) (email password role : String) : LoginOutcome :=
  let settled := api server page (AuthContext.loginRequest email password role)
  match settled.result with
  | .ok data =>
    let store := settled.page.localStorage.setItem "access_token" data.access
    let store := store.setItem "refresh_token" data.refresh
    let store := store.setItem "user" (stringify data.user)
    { page := { settled.page with localStorage := store }, user := some data.user,
      result := .success data.user }
  | .error error =>
    { page := settled.page, user := user,
      result := .failure (if truthy error.error then error.error.getD "" else "Login failed") }

/-- `isAuthenticated` (AuthContext.js line 92): `!!user`. -/
def AuthContext.isAuthenticated (user : Option User) : Bool := user.isSome

/-- A room number whose first three characters have the block format and are followed by
a hyphen. -/
def HasBlockPrefix (room_number : String) : Prop :=
  IsBlockFormat (String.mk (room_number.toList.take 3)) ∧
    (room_number.toList.drop 3).head? = some '-'

/-- An issue that has just been reported. -/
def openIssue : Issue :=
  { id := 3, booking := 8, issue_type := "OTHER", description := "Broken tap", status := "OPEN" }

/-- Two notifications, the first unread. -/
def sampleNotifications : List Notification :=
  [{ id := 1, title := "Assigned", message := "A cleaner was assigned", is_read := false,
     created_at := "2025-06-01T10:00:00Z" },
   { id := 2, title := "Completed", message := "Your room is clean", is_read := true,
     created_at := "2025-06-01T12:00:00Z" }]

/-- A booking nobody has accepted yet, on the server. -/
def pendingOnServer : ServerBooking := { status := "PENDING", assigned_cleaner := none }

/-- An issue report without a selected task. -/
def emptyIssueForm : IssueForm :=
  { booking := "", issue_type := "OTHER", description := "Broken tap", photo_url := "" }

/-! ## Sample sessions and servers -/

/-- A page with a stored session. -/
def sessionPage : Page :=
  { localStorage :=
      [("access_token", "old-access"), ("refresh_token", "old-refresh"), ("user", "aisha")],
    location := "/student/bookings" }

/-- A request for the booking list. -/
def bookingsRequest : RequestConfig :=
  { url := "/bookings/", data := [], authorization := none, _retry := false }

/-- A server that answers every request and every refresh with 401. -/
def expiredSessionServer : Server String :=
  { respond := fun _ => .error { status := some 401, error := some "Token expired" },
    refresh := fun _ => .error { status := some 401, error := none } }

/-- A server that renews the token `old-refresh` and accepts only the renewed access
token. -/
def renewingServer : Server String :=
  { respond := fun config =>
      if config.authorization = some "Bearer new-access" then .ok "bookings"
      else .error { status := some 401, error := none },
    refresh := fun token =>
      if token = some "old-refresh" then .ok "new-access"
      else .error { status := some 401, error := none } }

/-- A server that fails every request with 500. -/
def brokenServer : Server String :=
  { respond := fun _ => .error { status := some 500, error := some "Server error" },
    refresh := fun _ => .error { status := some 500, error := none } }

/-- A user of a login response. -/
def sampleUser : User :=
  { id := 1, name := "Aisha", email := "aisha@example.org", role := "STUDENT" }

/-- A login server that rejects the credentials with 401 and refuses to refresh. -/
def wrongPasswordServer : Server LoginData :=
  { respond := fun _ => .error { status := some 401, error := some "Invalid credentials" },
    refresh := fun _ => .error { status := some 401, error := none } }

/-- A login server that rejects the credentials with 400. -/
def badRequestServer : Server LoginData :=
  { respond := fun _ => .error { status := some 400, error := some "Invalid credentials" },
    refresh := fun _ => .error { status := some 401, error := none } }

/-- A login server that accepts the credentials. -/
def welcomingServer : Server LoginData :=
  { respond := fun _ => .ok { user := sampleUser, access := "a1", refresh := "r1" },
    refresh := fun _ => .error { status := some 401, error := none } }

/-- A stand-in for `JSON.stringify` on the sample user. -/
def sampleStringify (user : User) : String := user.name

/-- A form whose block and room are each well-formed but name different blocks. -/
def mismatchedForm : BookingForm :=
  { juneForm with block := "25E", room_number := "11A-04-10" }

/-! ## MyBookings.js: the list that is shown -/

/-- The filter of `fetchBookings` (MyBookings.js lines 29–31) applied to the response. -/
def MyBookings.activeBookings (data : List Booking) : List Booking :=
  data.filter fun b =>
    !(["CANCELLED"].contains b.status)
      || (b.status == "COMPLETED" && b.payment_status == "PENDING")

/-- A booking the student has cancelled. -/
def cancelledBooking : Booking :=
  { id := 10, booking_type := "STANDARD", status := "CANCELLED", payment_status := "PENDING",
    assigned_cleaner_name := none }

/-- A finished booking that has been paid. -/
def completedPaid : Booking :=
  { id := 11, booking_type := "STANDARD", status := "COMPLETED", payment_status := "PAID",
    assigned_cleaner_name := some "Siti" }

/-! ## NewRequests.js -/

/-- Requests of the new-requests page (api.js lines 82 and 97). -/
inductive CleanerRequest where
  | newRequests
  | acceptBooking (id : Nat)
  deriving DecidableEq, Repr

/-- What a run of `handleAcceptTask` leaves behind. -/
structure AcceptRun where
  requests : List CleanerRequest
  toast : Toast
  actionLoading : Bool
  deriving DecidableEq, Repr

/-- `handleAcceptTask` (NewRequests.js lines 45–58).  `acceptError` is `none` when the
accept request succeeds and otherwise the `error` text of the response, if any. -/
def NewRequests.handleAcceptTask (acceptError : Option (Option String)) (taskId : Nat) :
    AcceptRun :=
  match acceptError with
  | none =>
    { requests := [.acceptBooking taskId, .newRequests],
      toast := { message :=
                   "Task accepted successfully! You can now see it in your assigned tasks.",
                 type := "success" },
      actionLoading := false }
  | some text =>
    { requests := [.acceptBooking taskId],
      toast := { message := if truthy text then text.getD "" else "Failed to accept task",
                 type := "error" },
      actionLoading := false }

/-- The period of the polling timer of the page in milliseconds (NewRequests.js line 39). -/
def NewRequests.pollInterval : Nat := 15000

/-! ## App.js and Login.js: routes -/

/-- What a route renders. -/
inductive RouteElement where
  | page (component : String)
  | protectedPage (allowedRoles : List String) (component : String)
  | navigate (target : String)
  deriving DecidableEq, Repr

/-- The `allowedRoles` of the `ProtectedRoute` around an element, if there is one. -/
def RouteElement.allowedRoles : RouteElement → Option (List String)
  | .protectedPage allowedRoles _ => some allowedRoles
  | .page _ => none
  | .navigate _ => none

/-- A `<Route path=… element=… />`. -/
structure Route where
  path : String
  element : RouteElement
  deriving DecidableEq, Repr

/-- The routes with a fixed path declared in `App` (App.js lines 51–199), in order. -/
def App.staticRoutes : List Route :=
  [ { path := "/", element := .page "LandingPage" },
    { path := "/home", element := .page "Home" },
    { path := "/services", element := .page "Services" },
    { path := "/about", element := .page "About" },
    { path := "/login", element := .page "Login" },
    { path := "/register", element := .page "Register" },
    { path := "/forgot-password", element := .page "ForgotPassword" },
    { path := "/reset-password", element := .page "ResetPassword" },
    { path := "/student/dashboard", element := .protectedPage ["STUDENT"] "StudentDashboard" },
    { path := "/student/book", element := .protectedPage ["STUDENT"] "BookService" },
    { path := "/student/bookings", element := .protectedPage ["STUDENT"] "MyBookings" },
    { path := "/student/history", element := .protectedPage ["STUDENT"] "History" },
    { path := "/student/profile", element := .protectedPage ["STUDENT"] "Profile" },
    { path := "/student/notifications", element := .protectedPage ["STUDENT"] "Notifications" },
    { path := "/cleaner/dashboard", element := .protectedPage ["CLEANER"] "CleanerDashboard" },
    { path := "/cleaner/new-requests", element := .protectedPage ["CLEANER"] "NewRequests" },
    { path := "/cleaner/today", element := .protectedPage ["CLEANER"] "TodayTasks" },
    { path := "/cleaner/all-tasks", element := .protectedPage ["CLEANER"] "AllTasks" },
    { path := "/cleaner/history", element := .protectedPage ["CLEANER"] "MyHistory" },
    { path := "/cleaner/issues", element := .protectedPage ["CLEANER"] "ReportIssues" },
    { path := "/cleaner/stats", element := .protectedPage ["CLEANER"] "Statistics" },
    { path := "/admin/dashboard", element := .protectedPage ["ADMIN"] "AdminDashboard" },
    { path := "/admin/bookings", element := .protectedPage ["ADMIN"] "BookingsManagement" },
    { path := "/admin/staff", element := .protectedPage ["ADMIN"] "StaffManagement" },
    { path := "/admin/maintenance", element := .protectedPage ["ADMIN"] "Maintenance" },
    { path := "/admin/reports", element := .protectedPage ["ADMIN"] "Reports" } ]

/-- The catch-all route (App.js line 202). -/
def App.catchAll : Route := { path := "*", element := .navigate "/" }

/-- All routes of `App` in the order of the source. -/
def App.routes : List Route := App.staticRoutes ++ [App.catchAll]

/-- The call `s.toLowerCase()` on the ASCII letters. -/
def toLowerCase (s : String) : String := String.mk (s.toList.map Char.toLower)

/-- The matching of the router library (`react-router-dom`, which is not part of the
sources): `matcher path pathname` says whether the route path `path` matches the location
`pathname`.  How the library decodes and compares a location is left to it. -/
abbrev RouteMatcher := String → String → Bool

/-- The element `<Routes>` renders for a location: that of the first route, in the ranking
of the router, that matches.  The fixed routes rank before the catch-all; among the fixed
routes the order of the source is taken. -/
def App.resolve (matcher : RouteMatcher) (pathname : String) : Option RouteElement :=
  (App.routes.find? fun route => matcher route.path pathname).map fun route =>
    route.element

/-- A matcher for the samples: `*` matches every location and a fixed path matches the
location that is equal to it. -/
def exactMatcher : RouteMatcher := fun path pathname => path == "*" || path == pathname

/-- The path `Login.handleSubmit` navigates to after a successful login
(Login.js line 30). -/
def Login.dashboardPath (role : String) : String :=
  "/" ++ toLowerCase role ++ "/dashboard"

/-- Whether a route path starts with the given prefix. -/
def pathStartsWith (pre path : String) : Bool := pre.toList.isPrefixOf path.toList

/-! ## JavaScript numbers and values

Finite numbers are kept exact; the rounding of IEEE doubles and the sign of zero are not
modelled.  The conversions between numbers and strings are built-ins and are taken as
parameters. -/

/-- A JavaScript number. -/
inductive JsNumber where
  | finite (value : ℚ)
  | nan
  | posInf
  | negInf
  deriving DecidableEq

/-- The sum `a + b` of two numbers. -/
def JsNumber.add : JsNumber → JsNumber → JsNumber
  | .finite a, .finite b => .finite (a + b)
  | .nan, _ => .nan
  | _, .nan => .nan
  | .posInf, .negInf => .nan
  | .negInf, .posInf => .nan
  | .posInf, _ => .posInf
  | _, .posInf => .posInf
  | .negInf, _ => .negInf
  | _, .negInf => .negInf

/-- The product `a * b` of two numbers. -/
def JsNumber.mul : JsNumber → JsNumber → JsNumber
  | .finite a, .finite b => .finite (a * b)
  | .nan, _ => .nan
  | _, .nan => .nan
  | .finite a, .posInf => if a = 0 then .nan else if 0 < a then .posInf else .negInf
  | .finite a, .negInf => if a = 0 then .nan else if 0 < a then .negInf else .posInf
  | .posInf, .finite b => if b = 0 then .nan else if 0 < b then .posInf else .negInf
  | .negInf, .finite b => if b = 0 then .nan else if 0 < b then .negInf else .posInf
  | .posInf, .posInf => .posInf
  | .negInf, .negInf => .posInf
  | .posInf, .negInf => .negInf
  | .negInf, .posInf => .negInf

/-- The quotient `a / b` of two numbers. -/
def JsNumber.div : JsNumber → JsNumber → JsNumber
  | .finite a, .finite b =>
    if b = 0 then (if a = 0 then .nan else if 0 < a then .posInf else .negInf)
    else .finite (a / b)
  | .nan, _ => .nan
  | _, .nan => .nan
  | .finite _, .posInf => .finite 0
  | .finite _, .negInf => .finite 0
  | .posInf, .finite b => if 0 ≤ b then .posInf else .negInf
  | .negInf, .finite b => if 0 ≤ b then .negInf else .posInf
  | .posInf, .posInf => .nan
  | .posInf, .negInf => .nan
  | .negInf, .posInf => .nan
  | .negInf, .negInf => .nan

/-- A count (an array length) as a number. -/
def JsNumber.ofNat (n : Nat) : JsNumber := .finite n

/-- Truthiness of a number: `0` and `NaN` are falsy. -/
def JsNumber.truthy : JsNumber → Bool
  | .finite a => decide (a ≠ 0)
  | .nan => false
  | .posInf => true
  | .negInf => true

/-- The expression `x || 0` on a number. -/
def JsNumber.orZero (x : JsNumber) : JsNumber := if x.truthy then x else .finite 0

/-- A value of a JSON field that should hold an amount: a number, a string, or `null`.
A field that is missing altogether (`undefined`) behaves like `null` in the expressions the
pages apply to a price: truthiness, `|| 0`, `parseFloat` and `join`. -/
inductive JsValue where
  | num (n : JsNumber)
  | str (s : String)
  | null
  deriving DecidableEq

/-- The built-in conversions the pages rely on: `parseFloat` on strings and the
conversion of a number to a string. -/
structure JsRuntime where
  parseFloat : String → JsNumber
  numberToString : JsNumber → String

/-- Truthiness of a value: `0`, `NaN`, `''`, `null` and `undefined` are falsy. -/
def JsValue.truthy : JsValue → Bool
  | .num n => n.truthy
  | .str s => s != ""
  | .null => false

/-- The expression `v || 0`. -/
def JsValue.orZero (v : JsValue) : JsValue := if v.truthy then v else .num (.finite 0)

/-- The conversion of a value to a string. -/
def JsValue.toStr (rt : JsRuntime) : JsValue → String
  | .num n => rt.numberToString n
  | .str s => s
  | .null => "null"

/-- The conversion to a number of a value that is not a string (`null` converts to 0). -/
def JsValue.toNum : JsValue → JsNumber
  | .num n => n
  | .str _ => .nan
  | .null => .finite 0

/-- The operator `a + b`: string concatenation as soon as one side is a string, the sum
of numbers otherwise. -/
def JsValue.plus (rt : JsRuntime) (a b : JsValue) : JsValue :=
  match a, b with
  | .str x, _ => .str (x ++ b.toStr rt)
  | _, .str y => .str (a.toStr rt ++ y)
  | _, _ => .num (a.toNum.add b.toNum)

/-- The call `parseFloat(v)`: a number is returned as it is (it survives the round trip
through its string), a string is parsed, and `null` gives `NaN`. -/
def JsValue.parseFloat (rt : JsRuntime) : JsValue → JsNumber
  | .num n => n
  | .str s => rt.parseFloat s
  | .null => .nan

/-! ## Reports.js, History.js, MyHistory.js -/

/-- A booking as the report and history pages read it. -/
structure ReportBooking where
  id : Nat
  student_name : Option String
  block : String
  room_number : String
  booking_type : String
  preferred_date : String
  preferred_time : String
  status : String
  assigned_cleaner : Option Nat
  assigned_cleaner_name : Option String
  price : JsValue
  deriving DecidableEq

/-- A cleaner of the staff list. -/
structure Cleaner where
  id : Nat
  name : String
  deriving DecidableEq, Repr

/-- `calculateRevenue` (Reports.js lines 51–55). -/
def Reports.calculateRevenue (rt : JsRuntime) (bookings : List ReportBooking) : JsNumber :=
  (bookings.filter fun b => b.status == "COMPLETED").foldl
    (fun sum b => sum.add (b.price.orZero.parseFloat rt)) (.finite 0)

/-- `totalSpent` (History.js lines 51–53). -/
def History.totalSpent (rt : JsRuntime) (bookings : List ReportBooking) : JsNumber :=
  (bookings.filter fun b => b.status == "COMPLETED").foldl
    (fun sum b => sum.add (b.price.parseFloat rt)) (.finite 0)

/-- `totalEarnings` (MyHistory.js line 34). -/
def MyHistory.totalEarnings (rt : JsRuntime) (data : List ReportBooking) : JsValue :=
  data.foldl (fun sum task => sum.plus rt task.price.orZero) (.num (.finite 0))

/-- `getBookingTrends` (Reports.js lines 71–77): the object as its entries. -/
def Reports.getBookingTrends (bookings : List ReportBooking) : List (String × Nat) :=
  [("STANDARD_CLEANING", (bookings.filter fun b => b.booking_type == "STANDARD_CLEANING").length),
   ("DEEP_CLEANING", (bookings.filter fun b => b.booking_type == "DEEP_CLEANING").length)]

/-- `getStatusBreakdown` (Reports.js lines 79–87): the object as its entries. -/
def Reports.getStatusBreakdown (bookings : List ReportBooking) : List (String × Nat) :=
  [("PENDING", (bookings.filter fun b => b.status == "PENDING").length),
   ("ASSIGNED", (bookings.filter fun b => b.status == "ASSIGNED").length),
   ("IN_PROGRESS", (bookings.filter fun b => b.status == "IN_PROGRESS").length),
   ("COMPLETED", (bookings.filter fun b => b.status == "COMPLETED").length),
   ("CANCELLED", (bookings.filter fun b => b.status == "CANCELLED").length)]

/-- The property `obj[key]` of an object of counts (`0` stands in for a missing key, which
the pages never read). -/
def countOf (entries : List (String × Nat)) (key : String) : Nat :=
  (entries.lookup key).getD 0

/-- The statuses of the filter dropdown of the admin's booking list
(BookingsManagement.js line 26), without the entry `ALL`. -/
def bookingStatuses : List String :=
  ["PENDING", "WAITING_FOR_CLEANER", "ASSIGNED", "IN_PROGRESS", "COMPLETED", "CANCELLED"]

/-- The workload of one cleaner (Reports.js lines 60–66). -/
structure Workload where
  total : Nat
  completed : Nat
  inProgress : Nat
  pending : Nat
  deriving DecidableEq, Repr

/-- The body of the `forEach` of `getCleanerWorkload` for one cleaner. -/
def Reports.workloadOf (bookings : List ReportBooking) (cleaner : Cleaner) : Workload :=
  let tasks := bookings.filter fun b => b.assigned_cleaner == some cleaner.id
  { total := tasks.length,
    completed := (tasks.filter fun t => t.status == "COMPLETED").length,
    inProgress := (tasks.filter fun t => t.status == "IN_PROGRESS").length,
    pending := (tasks.filter fun t => t.status == "ASSIGNED").length }

/-- The percentage of a status row (Reports.js line 184). -/
def Reports.statusPercentage (bookings : List ReportBooking) (count : Nat) : JsNumber :=
  if bookings.length > 0 then
    ((JsNumber.ofNat count).div (.ofNat bookings.length)).mul (.finite 100)
  else .finite 0

/-- The width in percent of the bar of a service type (Reports.js lines 221 and 230). -/
def Reports.typeBarWidth (bookings : List ReportBooking) (key : String) : JsNumber :=
  ((JsNumber.ofNat (countOf (Reports.getBookingTrends bookings) key)).div
    (.ofNat bookings.length)).mul (.finite 100)

/-- The number shown as average price (Reports.js line 172) before `toFixed(2)`; the
literal `'0.00'` of the other branch is the number 0. -/
def Reports.averagePrice (rt : JsRuntime) (bookings : List ReportBooking) : JsNumber :=
  if bookings.length > 0 then
    ((Reports.calculateRevenue rt bookings).div
      (.ofNat (countOf (Reports.getStatusBreakdown bookings) "COMPLETED"))).orZero
  else .finite 0

/-- The completion rate of a cleaner row (Reports.js line 285) before `toFixed(1)`; the
literal `'0'` of the other branch is the number 0. -/
def Reports.completionRate (data : Workload) : JsNumber :=
  if data.total > 0 then
    ((JsNumber.ofNat data.completed).div (.ofNat data.total)).mul (.finite 100)
  else .finite 0

/-- A report row with the given type, status and price. -/
def reportRow (id : Nat) (booking_type status : String) (price : JsValue) : ReportBooking :=
  { id := id, student_name := some "Aisha", block := "25E", room_number := "25E-04-10",
    booking_type := booking_type, preferred_date := "2025-06-01", preferred_time := "10:00",
    status := status, assigned_cleaner := some 4, assigned_cleaner_name := some "Siti",
    price := price }

/-- Two completed bookings whose prices arrive as decimal strings. -/
def stringPricedHistory : List ReportBooking :=
  [reportRow 1 "STANDARD" "COMPLETED" (.str "20.00"),
   reportRow 2 "DEEP" "COMPLETED" (.str "30.00")]

/-- A booking that waits for a cleaner to accept it. -/
def waitingRow : ReportBooking :=
  reportRow 3 "STANDARD" "WAITING_FOR_CLEANER" (.str "20.00")

/-! ## Reports.js: the CSV export -/

/-- The text of `parts.join(separator)` as characters. -/
def joinChars (separator : List Char) : List (List Char) → List Char
  | [] => []
  | [part] => part
  | part :: next :: rest => part ++ separator ++ joinChars separator (next :: rest)

/-- The call `parts.join(separator)` on an array of strings. -/
def join (parts : List String) (separator : String) : String :=
  String.mk (joinChars separator.toList (parts.map String.toList))

/-- The pieces of `text.split(separator)` as characters, for a one-character separator. -/
def splitChars (separator : Char) : List Char → List (List Char)
  | [] => [[]]
  | c :: cs =>
    if c = separator then [] :: splitChars separator cs
    else
      match splitChars separator cs with
      | [] => [[c]]
      | piece :: pieces => (c :: piece) :: pieces

/-- The call `text.split(separator)` for a one-character separator. -/
def split (text : String) (separator : Char) : List String :=
  (splitChars separator text.toList).map String.mk

/-- The array `headers` (Reports.js line 90). -/
def Reports.headers : List String :=
  ["ID", "Student", "Room", "Type", "Date", "Time", "Status", "Cleaner", "Price"]

/-- How `join` renders an array element that holds an amount: `null` and `undefined`
become the empty string. -/
def JsValue.joined (rt : JsRuntime) : JsValue → String
  | .num n => rt.numberToString n
  | .str s => s
  | .null => ""

/-- One element of `rows` (Reports.js lines 91–101), each cell as `join` renders it. -/
def Reports.row (rt : JsRuntime) (b : ReportBooking) : List String :=
  [toString b.id,
   b.student_name.getD "",
   b.block ++ " - " ++ b.room_number,
   b.booking_type,
   b.preferred_date,
   b.preferred_time,
   b.status,
   if truthy b.assigned_cleaner_name then b.assigned_cleaner_name.getD "" else "N/A",
   b.price.joined rt]

/-- The lines of the CSV text before they are joined (Reports.js lines 103–106). -/
def Reports.csvLines (rt : JsRuntime) (bookings : List ReportBooking) : List String :=
  join Reports.headers "," :: bookings.map fun b => join (Reports.row rt b) ","

/-- `csvContent` of `exportToCSV` (Reports.js lines 103–106). -/
def Reports.csvContent (rt : JsRuntime) (bookings : List ReportBooking) : String :=
  join (Reports.csvLines rt bookings) "\n"

/-- A runtime for the samples: it parses the two price strings of the samples and prints
whole numbers. -/
def sampleRuntime : JsRuntime :=
  { parseFloat := fun s =>
      if s = "20.00" then .finite 20 else if s = "30.00" then .finite 30 else .nan,
    numberToString := fun n =>
      match n with
      | .finite q => if q.den = 1 then toString q.num else "NaN"
      | .nan => "NaN"
      | .posInf => "Infinity"
      | .negInf => "-Infinity" }

/-- A booking of a student whose name is written with a comma. -/
def commaNameRow : ReportBooking :=
  { reportRow 5 "DEEP" "PENDING" (.str "30.00") with
    student_name := some "Tan, Mei", assigned_cleaner := none, assigned_cleaner_name := none }

/-! ## Helper lemmas on the patterns -/

theorem matchTerm_eq_some (a : Atom) (n : Nat) (cs rest : List Char) :
    matchTerm a n cs = some rest ↔
      ∃ pre, cs = pre ++ rest ∧
        List.Forall₂ (fun (x : Atom) c => x.accepts c = true) (List.replicate n a) pre := by
  induction n generalizing cs with
  | zero =>
    simp only [matchTerm, List.replicate_zero, List.forall₂_nil_left_iff, Option.some.injEq]
    constructor
    · intro h; exact ⟨[], by simp [h], rfl⟩
    · rintro ⟨pre, h, rfl⟩; simpa using h
  | succ n ih =>
    cases cs with
    | nil =>
      simp only [matchTerm, List.replicate_succ, List.forall₂_cons_left_iff]
      constructor
      · intro h; cases h
      · rintro ⟨pre, h, b, u, -, -, rfl⟩
        simp at h
    | cons c cs =>
      simp only [matchTerm, List.replicate_succ, List.forall₂_cons_left_iff]
      by_cases hc : a.accepts c = true
      · rw [if_pos hc, ih]
        constructor
        · rintro ⟨pre, rfl, hpre⟩
          exact ⟨c :: pre, rfl, c, pre, hc, hpre, rfl⟩
        · rintro ⟨pre, h, b, u, hb, hu, rfl⟩
          simp only [List.cons_append, List.cons.injEq] at h
          exact ⟨u, h.2, hu⟩
      · rw [if_neg hc]
        constructor
        · intro h; cases h
        · rintro ⟨pre, h, b, u, hb, hu, rfl⟩
          simp only [List.cons_append, List.cons.injEq] at h
          exact absurd (h.1 ▸ hb) hc

theorem forall₂_append_split {α β : Type} {R : α → β → Prop} (l₁ l₂ : List α) (u : List β)
    (h : List.Forall₂ R (l₁ ++ l₂) u) :
    ∃ u₁ u₂, List.Forall₂ R l₁ u₁ ∧ List.Forall₂ R l₂ u₂ ∧ u = u₁ ++ u₂ := by
  induction l₁ generalizing u with
  | nil => exact ⟨[], u, List.Forall₂.nil, h, rfl⟩
  | cons a l₁ ih =>
    rw [List.cons_append, List.forall₂_cons_left_iff] at h
    obtain ⟨b, u', hab, hu', rfl⟩ := h
    obtain ⟨u₁, u₂, h₁, h₂, rfl⟩ := ih u' hu'
    exact ⟨b :: u₁, u₂, List.Forall₂.cons hab h₁, h₂, rfl⟩

theorem matchSeq_eq_some (p : Pattern) (cs rest : List Char) :
    matchSeq p cs = some rest ↔
      ∃ pre, cs = pre ++ rest ∧
        List.Forall₂ (fun (x : Atom) c => x.accepts c = true) p.expand pre := by
  induction p generalizing cs with
  | nil =>
    simp only [matchSeq, Pattern.expand, List.forall₂_nil_left_iff, Option.some.injEq]
    constructor
    · intro h; exact ⟨[], by simp [h], rfl⟩
    · rintro ⟨pre, h, rfl⟩; simpa using h
  | cons t ts ih =>
    obtain ⟨a, n⟩ := t
    simp only [matchSeq, Pattern.expand]
    cases hm : matchTerm a n cs with
    | none =>
      constructor
      · intro h; cases h
      · rintro ⟨pre, rfl, hpre⟩
        obtain ⟨l₁, l₂, h₁, h₂, rfl⟩ := forall₂_append_split _ _ _ hpre
        have : matchTerm a n (l₁ ++ l₂ ++ rest) = some (l₂ ++ rest) :=
          (matchTerm_eq_some a n _ _).2 ⟨l₁, by simp, h₁⟩
        rw [this] at hm
        cases hm
    | some mid =>
      obtain ⟨l₁, rfl, h₁⟩ := (matchTerm_eq_some a n _ _).1 hm
      simp only []
      rw [ih]
      constructor
      · rintro ⟨pre, rfl, hpre⟩
        exact ⟨l₁ ++ pre, by simp, List.rel_append h₁ hpre⟩
      · rintro ⟨pre, h, hpre⟩
        obtain ⟨k₁, k₂, g₁, g₂, rfl⟩ := forall₂_append_split _ _ _ hpre
        have hlen : k₁.length = l₁.length := by
          rw [← g₁.length_eq, ← h₁.length_eq]
        rw [List.append_assoc] at h
        have := List.append_inj h hlen.symm
        exact ⟨k₂, this.2, g₂⟩

/-- Whole-input matching is character-wise acceptance by the expanded pattern. -/
theorem Pattern.test_iff (p : Pattern) (s : String) :
    p.test s = true ↔
      List.Forall₂ (fun (x : Atom) c => x.accepts c = true) p.expand s.toList := by
  unfold Pattern.test
  rw [beq_iff_eq, matchSeq_eq_some]
  constructor
  · rintro ⟨pre, h, hpre⟩
    rw [List.append_nil] at h
    exact h ▸ hpre
  · intro h
    exact ⟨s.toList, by simp, h⟩

theorem blockPattern_test_iff (s : String) :
    blockPattern.test s = true ↔ IsBlockFormat s := by
  rw [Pattern.test_iff]
  unfold IsBlockFormat
  simp only [blockPattern, Pattern.expand, List.replicate, List.cons_append, List.nil_append,
    List.forall₂_cons_left_iff, List.forall₂_nil_left_iff, Atom.accepts]
  constructor
  · rintro ⟨a, _, ha, ⟨b, _, hb, ⟨c, _, hc, rfl, rfl⟩, rfl⟩, h⟩
    exact ⟨a, b, c, h, ha, hb, hc⟩
  · rintro ⟨a, b, c, h, ha, hb, hc⟩
    exact ⟨a, _, ha, ⟨b, _, hb, ⟨c, _, hc, rfl, rfl⟩, rfl⟩, h⟩

theorem roomPattern_test_iff (s : String) :
    roomPattern.test s = true ↔ IsRoomFormat s := by
  rw [Pattern.test_iff]
  unfold IsRoomFormat
  simp only [roomPattern, Pattern.expand, List.replicate, List.cons_append, List.nil_append,
    List.forall₂_cons_left_iff, List.forall₂_nil_left_iff, Atom.accepts, beq_iff_eq]
  constructor
  · rintro ⟨a, _, ha, ⟨b, _, hb, ⟨c, _, hc, ⟨_, _, rfl, ⟨d, _, hd, ⟨e, _, he,
      ⟨_, _, rfl, ⟨f, _, hf, ⟨g, _, hg, rfl, rfl⟩, rfl⟩, rfl⟩, rfl⟩, rfl⟩, rfl⟩, rfl⟩, rfl⟩, h⟩
    exact ⟨a, b, c, d, e, f, g, h, ha, hb, hc, hd, he, hf, hg⟩
  · rintro ⟨a, b, c, d, e, f, g, h, ha, hb, hc, hd, he, hf, hg⟩
    exact ⟨a, _, ha, ⟨b, _, hb, ⟨c, _, hc, ⟨_, _, rfl, ⟨d, _, hd, ⟨e, _, he,
      ⟨_, _, rfl, ⟨f, _, hf, ⟨g, _, hg, rfl, rfl⟩, rfl⟩, rfl⟩, rfl⟩, rfl⟩, rfl⟩, rfl⟩, rfl⟩, h⟩

theorem forall₂_replicate_digit (n : Nat) (ds : List Char) :
    List.Forall₂ (fun (x : Atom) c => x.accepts c = true) (List.replicate n Atom.digit) ds ↔
      ds.length = n ∧ ∀ d ∈ ds, d.isDigit = true := by
  induction n generalizing ds with
  | zero =>
    simp only [List.replicate_zero, List.forall₂_nil_left_iff, List.length_eq_zero]
    constructor
    · rintro rfl; simp
    · exact fun h => h.1
  | succ n ih =>
    cases ds with
    | nil => simp [List.replicate_succ]
    | cons d ds =>
      rw [List.replicate_succ, List.forall₂_cons, ih]
      simp only [Atom.accepts, List.length_cons, Nat.add_right_cancel_iff, List.mem_cons,
        forall_eq_or_imp]
      tauto

theorem studentIdPattern_test_iff (s : String) :
    studentIdPattern.test s = true ↔ IsStudentIdFormat s := by
  rw [Pattern.test_iff]
  unfold IsStudentIdFormat
  have hx : studentIdPattern.expand
      = Atom.lit 'A' :: Atom.lit 'I' :: Atom.lit 'U' :: List.replicate 8 Atom.digit := rfl
  rw [hx]
  have hlit : ∀ a c : Char, (Atom.lit a).accepts c = true ↔ c = a := by
    intro a c; simp [Atom.accepts]
  simp only [List.forall₂_cons_left_iff, hlit]
  constructor
  · rintro ⟨_, _, rfl, ⟨_, _, rfl, ⟨_, ds, rfl, hds, rfl⟩, rfl⟩, h⟩
    exact ⟨ds, h, (forall₂_replicate_digit 8 ds).1 hds⟩
  · rintro ⟨ds, h, hds⟩
    exact ⟨_, _, rfl, ⟨_, _, rfl, ⟨_, ds, rfl, (forall₂_replicate_digit 8 ds).2 hds, rfl⟩, rfl⟩, h⟩

theorem timeSlots_unrolled : timeSlots =
    hourSlots 8 ++ hourSlots 9 ++ hourSlots 10 ++ hourSlots 11 ++ hourSlots 12 ++ hourSlots 13
      ++ hourSlots 14 ++ hourSlots 15 ++ hourSlots 16 ++ hourSlots 17 ++ hourSlots 18
      ++ hourSlots 19 ++ hourSlots 20 ++ hourSlots 21 ++ hourSlots 22 ++ hourSlots 23 := by
  unfold timeSlots
  iterate 17 (rw [timeSlotsLoop]; simp only [Nat.reduceLT, if_true, if_false, Nat.reduceAdd, ite_true, ite_false])
  simp

theorem timeSlots_eq : timeSlots =
    ["08:00", "08:30", "09:00", "09:30", "10:00", "10:30", "11:00", "11:30",
     "12:00", "12:30", "13:00", "13:30", "14:00", "14:30", "15:00", "15:30",
     "16:00", "16:30", "17:00", "17:30", "18:00", "18:30", "19:00", "19:30",
     "20:00", "20:30", "21:00", "21:30", "22:00", "22:30", "23:00", "23:30"] := by
  rw [timeSlots_unrolled]
  decide
theorem blockPattern_rejects_one_digit : blockPattern.test "5E" = false := by decide

theorem blockPattern_accepts_25E : blockPattern.test "25E" = true := by decide

theorem roomPattern_accepts_sample : roomPattern.test "25E-04-10" = true := by decide

theorem studentIdPattern_accepts_sample : studentIdPattern.test "AIU23102325" = true := by
  decide

/-- C1 (the code, with the failing input): in `validateForm` a block error is recorded
exactly when the block is not two decimal digits followed by one uppercase letter, and with
block `5E` the form is invalid whatever its other fields; the form is valid exactly when
block and room number have their formats and the parsed date is not before local midnight
of today.  Block `25E` with room `25E-04-10` and the date 2025-06-01 is valid at noon of
that day in a browser eight hours ahead of UTC, but at noon of that day in a browser four
hours behind UTC, where 2025-06-01 is today's local date and so not in the past, it records
no block error and no room error and is still rejected. -/
theorem validateForm_block_rule_rejects_todays_date :
    (∀ (env : Browser) (formData : BookingForm),
      (validateForm env formData).1.hasKey "block" = true ↔ ¬ IsBlockFormat formData.block) ∧
    (∀ (env : Browser) (formData : BookingForm),
      (validateForm env { formData with block := "5E" }).2 = false) ∧
    (∀ (env : Browser) (formData : BookingForm),
      (validateForm env formData).2 = true ↔
        IsBlockFormat formData.block ∧ IsRoomFormat formData.room_number ∧
          dateLt (env.dateParse formData.preferred_date) (some env.today) = false) ∧
    (juneForm.block = "25E" ∧ IsRoomFormat juneForm.room_number ∧
      juneForm.preferred_date = "2025-06-01") ∧
    (clockEast.localDay = 20240 ∧ (validateForm clockEast juneForm).2 = true) ∧
    (clockWest.localDay = 20240 ∧
      clockWest.dateParse juneForm.preferred_date = some (clockWest.localDay * msPerDay) ∧
      (validateForm clockWest juneForm).1.hasKey "block" = false ∧
      (validateForm clockWest juneForm).1.hasKey "room_number" = false ∧
      (validateForm clockWest juneForm).2 = false) := by
  refine ⟨?_, ?_, ?_, ⟨rfl, (roomPattern_test_iff _).1 (by decide), rfl⟩,
    ⟨by decide, by decide⟩, ⟨by decide, by decide, by decide, by decide, by decide⟩⟩
  · intro env formData
    rw [← blockPattern_test_iff]
    cases hb : blockPattern.test formData.block <;>
      cases hr : roomPattern.test formData.room_number <;>
      cases hd : dateLt (env.dateParse formData.preferred_date) (some env.today) <;>
      simp [validateForm, hb, hr, hd, ErrorMap.set, ErrorMap.hasKey, ErrorMap.keys]
  · intro env formData
    have hb : blockPattern.test "5E" = false := by decide
    cases hr : roomPattern.test formData.room_number <;>
      cases hd : dateLt (env.dateParse formData.preferred_date) (some env.today) <;>
      simp [validateForm, hb, hr, hd, ErrorMap.set, ErrorMap.keys]
  · intro env formData
    rw [← blockPattern_test_iff, ← roomPattern_test_iff]
    cases hb : blockPattern.test formData.block <;>
      cases hr : roomPattern.test formData.room_number <;>
      cases hd : dateLt (env.dateParse formData.preferred_date) (some env.today) <;>
      simp [validateForm, hb, hr, hd, ErrorMap.set, ErrorMap.keys]

/-- The keys `validateStudentForm` records, in terms of the four pattern tests. -/
theorem validateStudentForm_keys (d : StudentData) (k : String) :
    (validateStudentForm d).1.hasKey k = true ↔
      (k = "confirm_password" ∧ d.password ≠ d.confirm_password) ∨
      (k = "student_id" ∧ studentIdPattern.test d.student_id = false) ∨
      (k = "block" ∧ blockPattern.test d.block = false) ∨
      (k = "room_number" ∧ roomPattern.test d.room_number = false) := by
  by_cases hp : d.password = d.confirm_password <;>
    cases hs : studentIdPattern.test d.student_id <;>
    cases hb : blockPattern.test d.block <;>
    cases hr : roomPattern.test d.room_number <;>
    simp [validateStudentForm, hp, hs, hb, hr, ErrorMap.set, ErrorMap.hasKey, ErrorMap.keys]

/-- The value `validateStudentForm` returns, in terms of the four pattern tests. -/
theorem validateStudentForm_result (d : StudentData) :
    (validateStudentForm d).2 = true ↔
      d.password = d.confirm_password ∧ studentIdPattern.test d.student_id = true ∧
        blockPattern.test d.block = true ∧ roomPattern.test d.room_number = true := by
  by_cases hp : d.password = d.confirm_password <;>
    cases hs : studentIdPattern.test d.student_id <;>
    cases hb : blockPattern.test d.block <;>
    cases hr : roomPattern.test d.room_number <;>
    simp [validateStudentForm, hp, hs, hb, hr, ErrorMap.set, ErrorMap.keys]

/-- C2: `validateStudentForm` returns true exactly when the passwords agree and the
student id, block and room number have their formats; the recorded errors carry a key for
exactly the fields that violate their rule. -/
theorem validateStudentForm_iff (d : StudentData) :
    ((validateStudentForm d).2 = true ↔
      d.password = d.confirm_password ∧ IsStudentIdFormat d.student_id ∧
        IsBlockFormat d.block ∧ IsRoomFormat d.room_number) ∧
    (∀ k, (validateStudentForm d).1.hasKey k = true ↔
      (k = "confirm_password" ∧ d.password ≠ d.confirm_password) ∨
      (k = "student_id" ∧ ¬ IsStudentIdFormat d.student_id) ∨
      (k = "block" ∧ ¬ IsBlockFormat d.block) ∨
      (k = "room_number" ∧ ¬ IsRoomFormat d.room_number)) := by
  constructor
  · rw [validateStudentForm_result, studentIdPattern_test_iff, blockPattern_test_iff,
      roomPattern_test_iff]
  · intro k
    rw [validateStudentForm_keys, ← studentIdPattern_test_iff, ← blockPattern_test_iff,
      ← roomPattern_test_iff]
    simp only [Bool.not_eq_true]

/-- A well-formed registration passes with no error recorded; a one-digit block is the
only error when everything else is well-formed. -/
theorem validateStudentForm_samples :
    validateStudentForm sampleStudent = ([], true) ∧
    validateStudentForm { sampleStudent with block := "5E" } =
      ([("block",
        "Block must be in format: 2 digits followed by 1 uppercase letter (e.g., 25E)")],
        false) := by
  constructor <;> decide

/-- The date error of `validateForm` is recorded exactly when the comparison
`selectedDate < today` holds. -/
theorem validateForm_date_error_iff (env : Browser) (formData : BookingForm) :
    (validateForm env formData).1.hasKey "preferred_date" = true ↔
      dateLt (env.dateParse formData.preferred_date) (some env.today) = true := by
  cases hb : blockPattern.test formData.block <;>
    cases hr : roomPattern.test formData.room_number <;>
    cases hd : dateLt (env.dateParse formData.preferred_date) (some env.today) <;>
    simp [validateForm, hb, hr, hd, ErrorMap.set, ErrorMap.hasKey, ErrorMap.keys]

/-- East of Greenwich (and at UTC) the date check is the calendar-day comparison. -/
theorem date_error_iff_earlier_day_east (env : Browser) (formData : BookingForm) (day : Int)
    (hoff : 0 ≤ env.offsetMinutes) (hoff' : env.offsetMinutes < 1440)
    (hparse : env.dateParse formData.preferred_date = some (day * msPerDay)) :
    (validateForm env formData).1.hasKey "preferred_date" = true ↔ day < env.localDay := by
  rw [validateForm_date_error_iff, hparse]
  simp only [dateLt, decide_eq_true_eq, Browser.today, msPerDay]
  constructor <;> intro h <;> omega

/-- A booking dated before today's local date is rejected in every time zone. -/
theorem date_error_of_earlier_day (env : Browser) (formData : BookingForm) (day : Int)
    (hoff : env.offsetMinutes < 1440)
    (hparse : env.dateParse formData.preferred_date = some (day * msPerDay))
    (hday : day < env.localDay) :
    (validateForm env formData).1.hasKey "preferred_date" = true := by
  rw [validateForm_date_error_iff, hparse]
  simp only [dateLt, decide_eq_true_eq, Browser.today, msPerDay]
  omega

/-- West of Greenwich a booking dated today is rejected. -/
theorem date_error_today_west (env : Browser) (formData : BookingForm)
    (hoff : env.offsetMinutes < 0)
    (hparse : env.dateParse formData.preferred_date = some (env.localDay * msPerDay)) :
    (validateForm env formData).1.hasKey "preferred_date" = true := by
  rw [validateForm_date_error_iff, hparse]
  simp only [dateLt, decide_eq_true_eq, Browser.today, msPerDay]
  omega

/-- C3 (the code at the failing input): at noon of 2025-06-01 in a browser four hours
behind UTC, a booking dated 2025-06-01, which is today's local date, gets the error
`Date cannot be in the past` and the form is rejected. -/
theorem validateForm_rejects_today_west_of_utc :
    clockWest.localDay = 20240 ∧
    clockWest.dateParse juneForm.preferred_date = some (20240 * msPerDay) ∧
    (validateForm clockWest juneForm).1 = [("preferred_date", "Date cannot be in the past")] ∧
    (validateForm clockWest juneForm).2 = false := by
  refine ⟨by decide, by decide, by decide, by decide⟩

/-- C4: the quoted price depends on `booking_type` alone: 20 for `STANDARD`, 30 for
`DEEP`, and two forms with the same `booking_type` have the same price. -/
theorem servicePrice_of_booking_type (formData : BookingForm) :
    (formData.booking_type = "STANDARD" → servicePrice formData = 20) ∧
    (formData.booking_type = "DEEP" → servicePrice formData = 30) ∧
    (∀ other : BookingForm, other.booking_type = formData.booking_type →
      servicePrice other = servicePrice formData) := by
  refine ⟨?_, ?_, ?_⟩
  · intro h; simp [servicePrice, h]
  · intro h; simp [servicePrice, h]
  · intro other h; simp [servicePrice, h]

theorem servicePrice_of_booking_type_witness :
    juneForm.booking_type = "DEEP" ∧ servicePrice juneForm = 30 :=
  ⟨rfl, (servicePrice_of_booking_type juneForm).2.1 rfl⟩

/-- C5: the selectable time slots are exactly the 30-minute grid from 08:00 to 23:30: 32
pairwise distinct labels `HH:00`, `HH:30` for the hours 08 to 23 in increasing order,
starting with `08:00` and ending with `23:30`, and the default time is one of them. -/
theorem timeSlots_grid :
    timeSlots = (List.range 32).map (fun i => slotLabel (8 * 60 + 30 * i)) ∧
    timeSlots =
      ["08:00", "08:30", "09:00", "09:30", "10:00", "10:30", "11:00", "11:30",
       "12:00", "12:30", "13:00", "13:30", "14:00", "14:30", "15:00", "15:30",
       "16:00", "16:30", "17:00", "17:30", "18:00", "18:30", "19:00", "19:30",
       "20:00", "20:30", "21:00", "21:30", "22:00", "22:30", "23:00", "23:30"] ∧
    timeSlots.length = 32 ∧
    timeSlots.Nodup ∧
    timeSlots.Pairwise (fun a b => slotMinutes a < slotMinutes b) ∧
    timeSlots.map slotMinutes = (List.range 32).map (fun i => 8 * 60 + 30 * i) ∧
    timeSlots.head? = some "08:00" ∧
    timeSlots.getLast? = some "23:30" ∧
    defaultPreferredTime ∈ timeSlots := by
  rw [timeSlots_eq]
  refine ⟨by decide, rfl, by decide, by decide, by decide, by decide, by decide, by decide,
    by decide⟩

/-- C6: a cancel control is offered on the card and in the details modal exactly for the
statuses `PENDING` and `ASSIGNED`, and every status `handleCancelBooking` sends to
`updateStatus` is `CANCELLED`. -/
theorem cancel_offered_iff (booking : Booking) (confirmed updateSucceeds : Bool)
    (bookingId : Nat) :
    (cardCancelOffered booking = true ↔
      booking.status = "PENDING" ∨ booking.status = "ASSIGNED") ∧
    (modalCancelOffered true (some booking) = true ↔
      booking.status = "PENDING" ∨ booking.status = "ASSIGNED") ∧
    (∀ id status, Request.updateStatus id status ∈
        handleCancelBooking confirmed updateSucceeds bookingId →
      status = "CANCELLED" ∧ id = bookingId) := by
  refine ⟨?_, ?_, ?_⟩
  · simp [cardCancelOffered]
  · simp [modalCancelOffered]
  · intro id status h
    cases confirmed <;> cases updateSucceeds <;>
      simp [handleCancelBooking] at h <;> exact ⟨h.2, h.1⟩

theorem cancel_offered_iff_witness :
    Request.updateStatus 7 "CANCELLED" ∈ handleCancelBooking true true 7 ∧
      ("CANCELLED" = "CANCELLED" ∧ 7 = 7) :=
  ⟨by decide, (cancel_offered_iff pendingBooking true true 7).2.2 7 "CANCELLED" (by decide)⟩

/-- The values the status dropdown offers, by status. -/
theorem adminStatusOffers_eq (booking : Booking) :
    adminStatusOffers booking =
      if booking.status ≠ "COMPLETED" ∧ booking.status ≠ "CANCELLED" then
        statusSelectOptions booking.status
      else [] := by
  unfold adminStatusOffers actionsCell
  split_ifs <;> simp

/-- C7: every status change to a different status that the admin dropdown or a cleaner
button can pass to `updateStatus` is an edge of the state machine; the dropdown offers
exactly PENDING→CANCELLED, ASSIGNED→IN_PROGRESS, ASSIGNED→CANCELLED and
IN_PROGRESS→COMPLETED, the cleaner buttons exactly ASSIGNED→IN_PROGRESS and
IN_PROGRESS→COMPLETED, with at most one button per task. -/
theorem offered_transitions_legal (booking : Booking) (updatingStatus : Option Nat)
    (t : String) :
    (t ∈ adminStatusOffers booking → t ≠ booking.status →
      transitionAllowed booking.status t = true) ∧
    ((t ∈ adminStatusOffers booking ∧ t ≠ booking.status) ↔
      (booking.status, t) ∈ [("PENDING", "CANCELLED"), ("ASSIGNED", "IN_PROGRESS"),
        ("ASSIGNED", "CANCELLED"), ("IN_PROGRESS", "COMPLETED")]) ∧
    (∀ b ∈ taskButtons updatingStatus booking,
      transitionAllowed booking.status b.newStatus = true) ∧
    ((∃ b ∈ taskButtons updatingStatus booking, b.newStatus = t) ↔
      (booking.status, t) ∈ [("ASSIGNED", "IN_PROGRESS"), ("IN_PROGRESS", "COMPLETED")]) ∧
    (taskButtons updatingStatus booking).length ≤ 1 ∧
    (∀ ok id status, Request.updateStatus id status ∈ handleStatusUpdate ok booking.id t →
      status = t) ∧
    (∀ ok id status, Request.updateStatus id status ∈ handleStatusChange ok booking.id t →
      status = t) ∧
    (cardCancelOffered booking = true → transitionAllowed booking.status "CANCELLED" = true) := by
  have hoffers := adminStatusOffers_eq booking
  have key : (t ∈ adminStatusOffers booking ∧ t ≠ booking.status) ↔
      (booking.status, t) ∈ [("PENDING", "CANCELLED"), ("ASSIGNED", "IN_PROGRESS"),
        ("ASSIGNED", "CANCELLED"), ("IN_PROGRESS", "COMPLETED")] := by
    rw [hoffers]
    by_cases h1 : booking.status = "PENDING"
    · simp only [h1, statusSelectOptions]
      constructor
      · rintro ⟨h, hn⟩
        simp at h
        rcases h with h | h
        · exact absurd h hn
        · simp [h]
      · intro h
        simp at h
        subst h
        simp
    by_cases h2 : booking.status = "ASSIGNED"
    · simp only [h2, statusSelectOptions]
      constructor
      · rintro ⟨h, hn⟩
        simp at h
        rcases h with h | h | h
        · exact absurd h hn
        · simp [h]
        · simp [h]
      · intro h
        simp at h
        rcases h with h | h <;> subst h <;> simp
    by_cases h3 : booking.status = "IN_PROGRESS"
    · simp only [h3, statusSelectOptions]
      constructor
      · rintro ⟨h, hn⟩
        simp at h
        rcases h with h | h
        · exact absurd h hn
        · simp [h]
      · intro h
        simp at h
        subst h
        simp
    by_cases h4 : booking.status = "COMPLETED"
    · simp [h4, statusSelectOptions]
    by_cases h5 : booking.status = "CANCELLED"
    · simp [h5, statusSelectOptions]
    simp [h1, h2, h3, h4, h5, statusSelectOptions]
  refine ⟨?_, key, ?_, ?_, ?_, ?_, ?_, ?_⟩
  · intro hmem hne
    have := key.1 ⟨hmem, hne⟩
    simp only [List.mem_cons, Prod.mk.injEq, List.mem_singleton, List.not_mem_nil,
      or_false] at this
    rcases this with ⟨hs, ht⟩ | ⟨hs, ht⟩ | ⟨hs, ht⟩ | ⟨hs, ht⟩ <;> rw [hs, ht] <;> decide
  · intro b hb
    by_cases h2 : booking.status = "ASSIGNED"
    · simp [taskButtons, h2] at hb
      rw [h2, hb]
      show transitionAllowed "ASSIGNED" "IN_PROGRESS" = true
      decide
    by_cases h3 : booking.status = "IN_PROGRESS"
    · simp [taskButtons, h3] at hb
      rw [h3, hb]
      show transitionAllowed "IN_PROGRESS" "COMPLETED" = true
      decide
    simp [taskButtons, h2, h3] at hb
  · by_cases h2 : booking.status = "ASSIGNED"
    · simp [taskButtons, h2, eq_comm]
    by_cases h3 : booking.status = "IN_PROGRESS"
    · simp [taskButtons, h3, eq_comm]
    simp [taskButtons, h2, h3]
  · by_cases h2 : booking.status = "ASSIGNED"
    · simp [taskButtons, h2]
    by_cases h3 : booking.status = "IN_PROGRESS"
    · simp [taskButtons, h3]
    simp [taskButtons, h2, h3]
  · intro ok id status h
    cases ok <;> simp [handleStatusUpdate] at h <;> exact h.2
  · intro ok id status h
    cases ok <;> simp [handleStatusChange] at h <;> exact h.2
  · intro h
    simp [cardCancelOffered] at h
    rcases h with h | h <;> rw [h] <;> decide

theorem offered_transitions_legal_witness :
    "IN_PROGRESS" ∈ adminStatusOffers assignedBooking ∧
      "IN_PROGRESS" ≠ assignedBooking.status ∧
      transitionAllowed assignedBooking.status "IN_PROGRESS" = true :=
  ⟨by decide, by decide,
    (offered_transitions_legal assignedBooking none "IN_PROGRESS").1 (by decide) (by decide)⟩

/-- C8: the Assign/Reassign control and the status dropdown are rendered exactly when
the booking is neither `COMPLETED` nor `CANCELLED`; the control reads `Reassign` when the
booking has a (non-empty) assigned cleaner name and `Assign` otherwise. -/
theorem assign_controls_iff (booking : Booking) :
    ((∃ label, Control.assignButton label ∈ actionsCell booking) ↔
      booking.status ≠ "COMPLETED" ∧ booking.status ≠ "CANCELLED") ∧
    ((∃ value options, Control.statusSelect value options ∈ actionsCell booking) ↔
      booking.status ≠ "COMPLETED" ∧ booking.status ≠ "CANCELLED") ∧
    (∀ label, Control.assignButton label ∈ actionsCell booking →
      (label = "Reassign" ∨ label = "Assign") ∧
      (label = "Reassign" ↔
        ∃ name, booking.assigned_cleaner_name = some name ∧ name ≠ "")) := by
  have htruthy : truthy booking.assigned_cleaner_name = true ↔
      ∃ name, booking.assigned_cleaner_name = some name ∧ name ≠ "" := by
    cases booking.assigned_cleaner_name <;> simp [truthy]
  refine ⟨?_, ?_, ?_⟩
  · unfold actionsCell
    split_ifs with h <;> simp [h]
  · unfold actionsCell
    split_ifs with h <;> simp [h]
  · intro label hmem
    rw [← htruthy]
    by_cases hs : booking.status ≠ "COMPLETED" ∧ booking.status ≠ "CANCELLED"
    · cases ht : truthy booking.assigned_cleaner_name <;>
        simp [actionsCell, hs, ht] at hmem <;> subst hmem <;> simp
    · simp [actionsCell, hs] at hmem

theorem assign_controls_iff_witness :
    Control.assignButton "Reassign" ∈ actionsCell assignedBooking ∧
      ∃ name, assignedBooking.assigned_cleaner_name = some name ∧ name ≠ "" :=
  ⟨by decide,
    ((assign_controls_iff assignedBooking).2.2 "Reassign" (by decide)).2.1 rfl⟩

/-- C9: for a booking whose `payment_status` is `PENDING` or `PAID`, `PaymentSection`
renders its controls exactly when the status is `COMPLETED` and the payment is `PENDING`,
and renders nothing otherwise; a booking `IN_PROGRESS` never gets payment controls. -/
theorem payment_controls_iff (booking : Booking) (st : PaymentState)
    (hpay : booking.payment_status = "PENDING" ∨ booking.payment_status = "PAID") :
    ((∃ controls, PaymentSection.render booking st = some controls ∧ controls ≠ []) ↔
      booking.status = "COMPLETED" ∧ booking.payment_status = "PENDING") ∧
    (¬ (booking.status = "COMPLETED" ∧ booking.payment_status = "PENDING") →
      PaymentSection.render booking st = none) ∧
    (booking.status = "IN_PROGRESS" → PaymentSection.render booking st = none) := by
  have hne : ("PENDING" : String) ≠ "PAID" := by decide
  refine ⟨?_, ?_, ?_⟩
  · unfold PaymentSection.render
    rcases hpay with h | h <;> by_cases hs : booking.status = "COMPLETED" <;>
      cases hso : st.showOnlinePayment <;> simp [h, hs, hso]
  · intro hn
    unfold PaymentSection.render
    rcases hpay with h | h <;> by_cases hs : booking.status = "COMPLETED" <;>
      simp_all
  · intro h
    simp [PaymentSection.render, h]

theorem payment_controls_iff_witness :
    (completedUnpaid.payment_status = "PENDING" ∨ completedUnpaid.payment_status = "PAID") ∧
      ((∃ controls, PaymentSection.render completedUnpaid receiptChosen = some controls ∧
          controls ≠ []) ↔
        completedUnpaid.status = "COMPLETED" ∧ completedUnpaid.payment_status = "PENDING") :=
  ⟨Or.inl rfl, (payment_controls_iff completedUnpaid receiptChosen (Or.inl rfl)).1⟩

/-- C10: without a selected file `handleUploadReceipt` sends nothing, leaves the state as
it was and reports `Please select a receipt file`; with a selected file it sends exactly
one `uploadPaymentReceipt` request for the booking whose form data holds that file under
`receipt`, and `loading` is false afterwards whatever the outcome. -/
theorem handleUploadReceipt_spec (booking : Booking) (hasCallback : Bool)
    (server : UploadOutcome) (st : PaymentState) :
    (st.selectedFile = none →
      handleUploadReceipt booking hasCallback server st
          = (st, [Effect.alert "Please select a receipt file"]) ∧
        requestsOf (handleUploadReceipt booking hasCallback server st).2 = []) ∧
    (∀ file, st.selectedFile = some file →
      requestsOf (handleUploadReceipt booking hasCallback server st).2
          = [Request.uploadPaymentReceipt booking.id [("receipt", file)]] ∧
        (handleUploadReceipt booking hasCallback server st).1.loading = false) := by
  constructor
  · intro h
    simp [handleUploadReceipt, h, requestsOf]
  · intro file h
    cases server <;> cases hasCallback <;> simp [handleUploadReceipt, h, requestsOf]

theorem handleUploadReceipt_spec_witness :
    noReceiptChosen.selectedFile = none ∧
      receiptChosen.selectedFile = some receiptFile ∧
      requestsOf (handleUploadReceipt completedUnpaid true (.failed none) noReceiptChosen).2
        = [] ∧
      requestsOf (handleUploadReceipt completedUnpaid true (.failed none) receiptChosen).2
        = [Request.uploadPaymentReceipt 9 [("receipt", receiptFile)]] ∧
      (handleUploadReceipt completedUnpaid true (.failed none) receiptChosen).1.loading
        = false :=
  ⟨rfl, rfl,
    ((handleUploadReceipt_spec completedUnpaid true (.failed none) noReceiptChosen).1 rfl).2,
    ((handleUploadReceipt_spec completedUnpaid true (.failed none) receiptChosen).2
      receiptFile rfl).1,
    ((handleUploadReceipt_spec completedUnpaid true (.failed none) receiptChosen).2
      receiptFile rfl).2⟩

/-! ## Lemmas on `localStorage` and the interceptors -/

theorem getItem_setItem (store : LocalStorage) (key value k : String) :
    (store.setItem key value).getItem k = if k = key then some value else store.getItem k := by
  induction store with
  | nil =>
    by_cases h : k = key
    · simp [LocalStorage.setItem, LocalStorage.getItem, List.lookup, h]
    · have : (k == key) = false := by simpa using h
      simp [LocalStorage.setItem, LocalStorage.getItem, List.lookup, h, this]
  | cons entry rest ih =>
    obtain ⟨k', v'⟩ := entry
    unfold LocalStorage.getItem at ih ⊢
    by_cases hk : k' = key
    · by_cases h : k = key
      · simp [LocalStorage.setItem, List.lookup, hk, h]
      · have : (k == key) = false := by simpa using h
        simp [LocalStorage.setItem, List.lookup, hk, h, this]
    · by_cases h : k = k'
      · have hne : ¬ k' = key := hk
        simp [LocalStorage.setItem, List.lookup, hk, h]
      · have : (k == k') = false := by simpa using h
        simp [LocalStorage.setItem, List.lookup, hk, this, ih]

theorem getItem_removeItem (store : LocalStorage) (key k : String) :
    (store.removeItem key).getItem k = if k = key then none else store.getItem k := by
  induction store with
  | nil => simp [LocalStorage.removeItem, LocalStorage.getItem, List.lookup]
  | cons entry rest ih =>
    obtain ⟨k', v'⟩ := entry
    unfold LocalStorage.getItem LocalStorage.removeItem at ih ⊢
    by_cases hk : k' = key
    · subst hk
      by_cases h : k = k'
      · simp [List.filter, h] at ih ⊢
        simpa [h] using ih
      · have : (k == k') = false := by simpa using h
        simp [List.filter, List.lookup, this, h] at ih ⊢
        simpa [h] using ih
    · have hb : (k' != key) = true := by simpa using hk
      by_cases h : k = k'
      · subst h
        simp [List.filter, hb, List.lookup, hk]
      · have : (k == k') = false := by simpa using h
        simp only [List.filter, hb, List.lookup, this]
        exact ih

theorem requestInterceptor_retry (page : Page) (config : RequestConfig) :
    (requestInterceptor page config)._retry = config._retry := by
  unfold requestInterceptor
  dsimp only
  split_ifs <;> rfl

/-- A rejection that is not a first 401 is handed on as it is. -/
theorem onRejected_pass {α : Type} (server : Server α) (page : Page) (error : AxiosError)
    (h : ¬ (error.status = some 401 ∧ error.config._retry = false)) :
    onRejected server page error = { page := page, result := .error error, calls := [] } := by
  rw [onRejected]
  simp only [dif_neg h]

/-- A first 401 whose refresh fails ends the session. -/
theorem onRejected_refresh_failed {α : Type} (server : Server α) (page : Page)
    (error : AxiosError) (h401 : error.status = some 401) (hretry : error.config._retry = false)
    (f : Failure) (hf : server.refresh (page.localStorage.getItem "refresh_token") = .error f) :
    onRejected server page error =
      { page := { localStorage := ((page.localStorage.removeItem "access_token").removeItem
                    "refresh_token").removeItem "user",
                  location := "/login" },
        result := .error { status := f.status, error := f.error,
                           config := refreshConfig (page.localStorage.getItem "refresh_token") },
        calls := [.refresh (page.localStorage.getItem "refresh_token")] } := by
  rw [onRejected]
  simp only [dif_pos (And.intro h401 hretry), hf]

/-- A retried request settles with the server's answer and no further exchange. -/
theorem api_retried {α : Type} (server : Server α) (page : Page) (config : RequestConfig)
    (h : config._retry = true) :
    api server page config =
      match server.respond (requestInterceptor page config) with
      | .ok response =>
        { page := page, result := .ok response,
          calls := [.send (requestInterceptor page config)] }
      | .error f =>
        { page := page,
          result := .error { status := f.status, error := f.error,
                             config := requestInterceptor page config },
          calls := [.send (requestInterceptor page config)] } := by
  rw [api]
  cases hr : server.respond (requestInterceptor page config) with
  | ok response => simp only [hr]
  | error f =>
    simp only [hr]
    rw [onRejected_pass]
    simp [requestInterceptor_retry, h]

/-- A first 401 whose refresh succeeds stores the new token and replays the request. -/
theorem onRejected_refresh_ok {α : Type} (server : Server α) (page : Page)
    (error : AxiosError) (h401 : error.status = some 401) (hretry : error.config._retry = false)
    (access : String)
    (ha : server.refresh (page.localStorage.getItem "refresh_token") = .ok access) :
    onRejected server page error =
      match server.respond (replayConfig page error access) with
      | .ok response =>
        { page := { page with
                    localStorage := page.localStorage.setItem "access_token" access },
          result := .ok response,
          calls := [.refresh (page.localStorage.getItem "refresh_token"),
                    .send (replayConfig page error access)] }
      | .error f =>
        { page := { page with
                    localStorage := page.localStorage.setItem "access_token" access },
          result := .error { status := f.status, error := f.error,
                             config := replayConfig page error access },
          calls := [.refresh (page.localStorage.getItem "refresh_token"),
                    .send (replayConfig page error access)] } := by
  rw [onRejected]
  simp only [dif_pos (And.intro h401 hretry), ha]
  rw [api_retried _ _ _ rfl]
  unfold replayConfig
  cases server.respond _ <;> rfl

/-- The exchanges the rejection handler makes. -/
theorem onRejected_calls {α : Type} (server : Server α) (page : Page) (error : AxiosError) :
    (onRejected server page error).calls =
      if error.status = some 401 ∧ error.config._retry = false then
        match server.refresh (page.localStorage.getItem "refresh_token") with
        | .ok access =>
          [.refresh (page.localStorage.getItem "refresh_token"),
           .send (replayConfig page error access)]
        | .error _ => [.refresh (page.localStorage.getItem "refresh_token")]
      else [] := by
  by_cases hc : error.status = some 401 ∧ error.config._retry = false
  · rw [if_pos hc]
    cases hr : server.refresh (page.localStorage.getItem "refresh_token") with
    | error f => rw [onRejected_refresh_failed server page error hc.1 hc.2 f hr]
    | ok access =>
      rw [onRejected_refresh_ok server page error hc.1 hc.2 access hr]
      cases server.respond (replayConfig page error access) <;> rfl
  · rw [if_neg hc, onRejected_pass server page error hc]

/-- The page globals the rejection handler leaves behind. -/
theorem onRejected_page {α : Type} (server : Server α) (page : Page) (error : AxiosError) :
    (onRejected server page error).page =
      if error.status = some 401 ∧ error.config._retry = false then
        match server.refresh (page.localStorage.getItem "refresh_token") with
        | .ok access =>
          { page with localStorage := page.localStorage.setItem "access_token" access }
        | .error _ =>
          { localStorage := ((page.localStorage.removeItem "access_token").removeItem
              "refresh_token").removeItem "user",
            location := "/login" }
      else page := by
  by_cases hc : error.status = some 401 ∧ error.config._retry = false
  · rw [if_pos hc]
    cases hr : server.refresh (page.localStorage.getItem "refresh_token") with
    | error f => rw [onRejected_refresh_failed server page error hc.1 hc.2 f hr]
    | ok access =>
      rw [onRejected_refresh_ok server page error hc.1 hc.2 access hr]
      cases server.respond (replayConfig page error access) <;> rfl
  · rw [if_neg hc, onRejected_pass server page error hc]

/-- The value the rejection handler settles with. -/
theorem onRejected_result {α : Type} (server : Server α) (page : Page) (error : AxiosError) :
    (onRejected server page error).result =
      if error.status = some 401 ∧ error.config._retry = false then
        match server.refresh (page.localStorage.getItem "refresh_token") with
        | .ok access =>
          match server.respond (replayConfig page error access) with
          | .ok response => .ok response
          | .error f =>
            .error { status := f.status, error := f.error,
                     config := replayConfig page error access }
        | .error f =>
          .error { status := f.status, error := f.error,
                   config := refreshConfig (page.localStorage.getItem "refresh_token") }
      else .error error := by
  by_cases hc : error.status = some 401 ∧ error.config._retry = false
  · rw [if_pos hc]
    cases hr : server.refresh (page.localStorage.getItem "refresh_token") with
    | error f => rw [onRejected_refresh_failed server page error hc.1 hc.2 f hr]
    | ok access =>
      rw [onRejected_refresh_ok server page error hc.1 hc.2 access hr]
      cases hresp : server.respond (replayConfig page error access) <;> simp only [hresp]
  · rw [if_neg hc, onRejected_pass server page error hc]

/-- A call through `api`, unfolded once. -/
theorem api_unfold {α : Type} (server : Server α) (page : Page) (config : RequestConfig) :
    api server page config =
      match server.respond (requestInterceptor page config) with
      | .ok response =>
        { page := page, result := .ok response,
          calls := [.send (requestInterceptor page config)] }
      | .error f =>
        { page := (onRejected server page
            { status := f.status, error := f.error,
              config := requestInterceptor page config }).page,
          result := (onRejected server page
            { status := f.status, error := f.error,
              config := requestInterceptor page config }).result,
          calls := .send (requestInterceptor page config) ::
            (onRejected server page
              { status := f.status, error := f.error,
                config := requestInterceptor page config }).calls } := by
  rw [api]

/-- C12: the rejection handler of the response interceptor asks for a new token exactly
when the failed response has status 401 and the request is not marked as retried; it makes
at most one refresh call and at most one replay, a replay that fails is rejected to the
caller without another refresh, and a failure with another status is rejected unchanged
with the page globals untouched.  A request sent through `api` therefore causes at most
one refresh call and reaches the server at most twice. -/
theorem refresh_iff_first_401 {α : Type} (server : Server α) (page : Page)
    (error : AxiosError) :
    (refreshCalls (onRejected server page error).calls ≠ [] ↔
      error.status = some 401 ∧ error.config._retry = false) ∧
    (refreshCalls (onRejected server page error).calls).length ≤ 1 ∧
    (sentConfigs (onRejected server page error).calls).length ≤ 1 ∧
    (∀ replay ∈ sentConfigs (onRejected server page error).calls, ∀ f,
      server.respond replay = .error f →
        (onRejected server page error).result
            = .error { status := f.status, error := f.error, config := replay } ∧
          (refreshCalls (onRejected server page error).calls).length = 1) ∧
    (error.status ≠ some 401 →
      onRejected server page error = { page := page, result := .error error, calls := [] }) ∧
    (∀ config : RequestConfig,
      (refreshCalls (api server page config).calls).length ≤ 1 ∧
        (sentConfigs (api server page config).calls).length ≤ 2) := by
  have hcalls := onRejected_calls server page error
  have hresult := onRejected_result server page error
  refine ⟨?_, ?_, ?_, ?_, ?_, ?_⟩
  · rw [hcalls]
    by_cases hc : error.status = some 401 ∧ error.config._retry = false
    · rw [if_pos hc]
      cases server.refresh (page.localStorage.getItem "refresh_token") <;>
        simp [refreshCalls, hc]
    · rw [if_neg hc]
      simp [refreshCalls, hc]
  · rw [hcalls]
    split_ifs
    · cases server.refresh (page.localStorage.getItem "refresh_token") <;> simp [refreshCalls]
    · simp [refreshCalls]
  · rw [hcalls]
    split_ifs
    · cases server.refresh (page.localStorage.getItem "refresh_token") <;> simp [sentConfigs]
    · simp [sentConfigs]
  · intro replay hmem f hf
    rw [hcalls] at hmem ⊢
    rw [hresult]
    by_cases hc : error.status = some 401 ∧ error.config._retry = false
    · rw [if_pos hc] at hmem ⊢
      rw [if_pos hc]
      cases hr : server.refresh (page.localStorage.getItem "refresh_token") with
      | error g =>
        rw [hr] at hmem
        simp [sentConfigs] at hmem
      | ok access =>
        rw [hr] at hmem
        simp only [sentConfigs, List.filterMap_cons, List.filterMap_nil, List.mem_singleton]
          at hmem
        subst hmem
        simp [hf, refreshCalls]
    · rw [if_neg hc] at hmem
      simp [sentConfigs] at hmem
  · intro hne
    exact onRejected_pass server page error (fun h => hne h.1)
  · intro config
    rw [api_unfold]
    cases server.respond (requestInterceptor page config) with
    | ok response => simp [refreshCalls, sentConfigs]
    | error f =>
      simp only []
      rw [onRejected_calls]
      split_ifs
      · cases server.refresh (page.localStorage.getItem "refresh_token") <;>
          simp [refreshCalls, sentConfigs]
      · simp [refreshCalls, sentConfigs]

theorem refresh_iff_first_401_witness :
    (AxiosError.mk (some 500) (some "Server error") bookingsRequest).status ≠ some 401 ∧
      onRejected brokenServer sessionPage
          (AxiosError.mk (some 500) (some "Server error") bookingsRequest)
        = { page := sessionPage,
            result := .error (AxiosError.mk (some 500) (some "Server error") bookingsRequest),
            calls := [] } :=
  ⟨by decide,
    (refresh_iff_first_401 brokenServer sessionPage
      (AxiosError.mk (some 500) (some "Server error") bookingsRequest)).2.2.2.2.1 (by decide)⟩

/-- The replayed request carries the new token. -/
theorem replayConfig_authorization (page : Page) (error : AxiosError) (access : String) :
    (replayConfig page error access).authorization = some ("Bearer " ++ access) ∧
      (replayConfig page error access)._retry = true ∧
      (replayConfig page error access).url = error.config.url ∧
      (replayConfig page error access).data = error.config.data := by
  unfold replayConfig requestInterceptor
  simp only [getItem_setItem, if_true]
  by_cases h : truthy (some access) = true
  · simp [h]
  · simp [h]

/-- C13: when the refresh triggered by a first 401 fails, `access_token`, `refresh_token`
and `user` are absent from localStorage afterwards, the location is `/login` and the
promise is rejected with the refresh error; when it succeeds, only `access_token` changes,
to the new token, and the one replayed request carries `Bearer` followed by the new
token. -/
theorem session_after_refresh {α : Type} (server : Server α) (page : Page)
    (error : AxiosError) (h401 : error.status = some 401)
    (hretry : error.config._retry = false) :
    (∀ f, server.refresh (page.localStorage.getItem "refresh_token") = .error f →
      (onRejected server page error).page.localStorage.getItem "access_token" = none ∧
      (onRejected server page error).page.localStorage.getItem "refresh_token" = none ∧
      (onRejected server page error).page.localStorage.getItem "user" = none ∧
      (onRejected server page error).page.location = "/login" ∧
      (onRejected server page error).result =
        .error { status := f.status, error := f.error,
                 config := refreshConfig (page.localStorage.getItem "refresh_token") }) ∧
    (∀ access, server.refresh (page.localStorage.getItem "refresh_token") = .ok access →
      (onRejected server page error).page.localStorage.getItem "access_token" = some access ∧
      (onRejected server page error).page.localStorage.getItem "refresh_token"
        = page.localStorage.getItem "refresh_token" ∧
      (onRejected server page error).page.localStorage.getItem "user"
        = page.localStorage.getItem "user" ∧
      (∀ key, key ≠ "access_token" →
        (onRejected server page error).page.localStorage.getItem key
          = page.localStorage.getItem key) ∧
      (onRejected server page error).page.location = page.location ∧
      (∃ replay, sentConfigs (onRejected server page error).calls = [replay] ∧
        replay.authorization = some ("Bearer " ++ access) ∧
        replay.url = error.config.url ∧ replay.data = error.config.data)) := by
  have hc : error.status = some 401 ∧ error.config._retry = false := ⟨h401, hretry⟩
  constructor
  · intro f hf
    rw [onRejected_page, onRejected_result, if_pos hc, if_pos hc, hf]
    simp [getItem_removeItem]
  · intro access ha
    rw [onRejected_page, onRejected_calls, if_pos hc, if_pos hc, ha]
    have hkey : ∀ key, key ≠ "access_token" →
        (page.localStorage.setItem "access_token" access).getItem key
          = page.localStorage.getItem key := by
      intro key hne
      rw [getItem_setItem, if_neg hne]
    refine ⟨?_, hkey _ (by decide), hkey _ (by decide), hkey, rfl, ?_⟩
    · simp [getItem_setItem]
    · have hr := replayConfig_authorization page error access
      exact ⟨replayConfig page error access, by simp [sentConfigs], hr.1, hr.2.2.1, hr.2.2.2⟩

theorem session_after_refresh_witness :
    (AxiosError.mk (some 401) none bookingsRequest).status = some 401 ∧
      (AxiosError.mk (some 401) none bookingsRequest).config._retry = false ∧
      renewingServer.refresh (sessionPage.localStorage.getItem "refresh_token")
        = .ok "new-access" ∧
      (onRejected renewingServer sessionPage
          (AxiosError.mk (some 401) none bookingsRequest)).page.localStorage.getItem
            "access_token" = some "new-access" ∧
      expiredSessionServer.refresh (sessionPage.localStorage.getItem "refresh_token")
        = .error { status := some 401, error := none } ∧
      (onRejected expiredSessionServer sessionPage
          (AxiosError.mk (some 401) none bookingsRequest)).page.location = "/login" :=
  ⟨rfl, rfl, rfl,
    ((session_after_refresh renewingServer sessionPage
      (AxiosError.mk (some 401) none bookingsRequest) rfl rfl).2 "new-access" rfl).1,
    rfl,
    ((session_after_refresh expiredSessionServer sessionPage
      (AxiosError.mk (some 401) none bookingsRequest) rfl rfl).1
        { status := some 401, error := none } rfl).2.2.2.1⟩

/-- What `login` does once the request has resolved. -/
theorem login_of_ok (server : Server LoginData) (stringify : User → String) (page : Page)
    (user : Option User) (email password role : String) (data : LoginData)
    (h : (api server page (AuthContext.loginRequest email password role)).result = .ok data) :
    AuthContext.login server stringify page user email password role =
      { page := { (api server page (AuthContext.loginRequest email password role)).page with
          localStorage :=
            (((api server page (AuthContext.loginRequest email password role)).page.localStorage.setItem
              "access_token" data.access).setItem "refresh_token" data.refresh).setItem
              "user" (stringify data.user) },
        user := some data.user, result := .success data.user } := by
  unfold AuthContext.login
  simp only [h]

/-- What `login` does once the request has been rejected. -/
theorem login_of_error (server : Server LoginData) (stringify : User → String) (page : Page)
    (user : Option User) (email password role : String) (e : AxiosError)
    (h : (api server page (AuthContext.loginRequest email password role)).result = .error e) :
    AuthContext.login server stringify page user email password role =
      { page := (api server page (AuthContext.loginRequest email password role)).page,
        user := user,
        result := .failure (if truthy e.error then e.error.getD "" else "Login failed") } := by
  unfold AuthContext.login
  simp only [h]

/-- C18 (counterexample): with a stored session, a login rejected with 401 and the error
text `Invalid credentials` returns the error `Login failed`, empties localStorage and
sends the page to `/login`. -/
theorem login_401_clears_session :
    wrongPasswordServer.respond
        (requestInterceptor sessionPage (AuthContext.loginRequest "aisha@example.org" "pw" "STUDENT"))
      = .error { status := some 401, error := some "Invalid credentials" } ∧
    (AuthContext.login wrongPasswordServer sampleStringify sessionPage none
        "aisha@example.org" "pw" "STUDENT").result = .failure "Login failed" ∧
    (AuthContext.login wrongPasswordServer sampleStringify sessionPage none
        "aisha@example.org" "pw" "STUDENT").page = { localStorage := [], location := "/login" } ∧
    (AuthContext.login wrongPasswordServer sampleStringify sessionPage none
        "aisha@example.org" "pw" "STUDENT").page ≠ sessionPage := by
  have hresp : wrongPasswordServer.respond
        (requestInterceptor sessionPage
          (AuthContext.loginRequest "aisha@example.org" "pw" "STUDENT"))
      = .error { status := some 401, error := some "Invalid credentials" } := rfl
  have hapi := api_unfold wrongPasswordServer sessionPage
    (AuthContext.loginRequest "aisha@example.org" "pw" "STUDENT")
  rw [hresp] at hapi
  simp only [] at hapi
  have hrefresh : wrongPasswordServer.refresh (sessionPage.localStorage.getItem "refresh_token")
      = .error { status := some 401, error := none } := rfl
  have hrej := onRejected_refresh_failed wrongPasswordServer sessionPage
    { status := some 401, error := some "Invalid credentials",
      config := requestInterceptor sessionPage
        (AuthContext.loginRequest "aisha@example.org" "pw" "STUDENT") }
    rfl rfl _ hrefresh
  rw [hrej] at hapi
  have hres : (api wrongPasswordServer sessionPage
      (AuthContext.loginRequest "aisha@example.org" "pw" "STUDENT")).result
      = .error { status := some 401, error := none,
                 config := refreshConfig (sessionPage.localStorage.getItem "refresh_token") } := by
    rw [hapi]
  have hlogin := login_of_error wrongPasswordServer sampleStringify sessionPage none
    "aisha@example.org" "pw" "STUDENT" _ hres
  rw [hlogin, hapi]
  refine ⟨hresp, ?_, ?_, ?_⟩
  · simp [truthy]
  · decide
  · decide

/-- C18 (amended): when the login request resolves with `{user, access, refresh}`,
localStorage holds the three entries, the context user is the returned user and the result
is a success; when the request fails with a status other than 401, the result carries the
response's error text (or `Login failed` when there is none) and the page globals and the
context user are as before the call; on any rejection `login` itself writes nothing. -/
theorem login_all_or_nothing (server : Server LoginData) (stringify : User → String)
    (page : Page) (user : Option User) (email password role : String) :
    (∀ data,
      (api server page (AuthContext.loginRequest email password role)).result = .ok data →
      (AuthContext.login server stringify page user email password role).page.localStorage.getItem
          "access_token" = some data.access ∧
      (AuthContext.login server stringify page user email password role).page.localStorage.getItem
          "refresh_token" = some data.refresh ∧
      (AuthContext.login server stringify page user email password role).page.localStorage.getItem
          "user" = some (stringify data.user) ∧
      (AuthContext.login server stringify page user email password role).user
          = some data.user ∧
      AuthContext.isAuthenticated
          (AuthContext.login server stringify page user email password role).user = true ∧
      (AuthContext.login server stringify page user email password role).result
          = .success data.user) ∧
    (∀ f,
      server.respond (requestInterceptor page (AuthContext.loginRequest email password role))
          = .error f →
      f.status ≠ some 401 →
      (AuthContext.login server stringify page user email password role).result
          = .failure (if truthy f.error then f.error.getD "" else "Login failed") ∧
      (AuthContext.login server stringify page user email password role).page = page ∧
      (AuthContext.login server stringify page user email password role).user = user) ∧
    (∀ e,
      (api server page (AuthContext.loginRequest email password role)).result = .error e →
      (AuthContext.login server stringify page user email password role).page
          = (api server page (AuthContext.loginRequest email password role)).page ∧
      (AuthContext.login server stringify page user email password role).user = user) := by
  refine ⟨?_, ?_, ?_⟩
  · intro data h
    rw [login_of_ok server stringify page user email password role data h]
    simp [getItem_setItem, AuthContext.isAuthenticated]
  · intro f hf hne
    have hapi := api_unfold server page (AuthContext.loginRequest email password role)
    rw [hf] at hapi
    simp only [] at hapi
    rw [onRejected_pass server page _ (fun h => hne h.1)] at hapi
    have hres : (api server page (AuthContext.loginRequest email password role)).result
        = .error { status := f.status, error := f.error,
                   config := requestInterceptor page
                     (AuthContext.loginRequest email password role) } := by
      rw [hapi]
    rw [login_of_error server stringify page user email password role _ hres, hapi]
    exact ⟨rfl, rfl, rfl⟩
  · intro e h
    rw [login_of_error server stringify page user email password role e h]
    exact ⟨rfl, rfl⟩

theorem login_all_or_nothing_witness :
    badRequestServer.respond
        (requestInterceptor sessionPage (AuthContext.loginRequest "aisha@example.org" "pw" "STUDENT"))
      = .error { status := some 400, error := some "Invalid credentials" } ∧
    (some 400 : Option Nat) ≠ some 401 ∧
    (AuthContext.login badRequestServer sampleStringify sessionPage none
        "aisha@example.org" "pw" "STUDENT").result = .failure "Invalid credentials" ∧
    (AuthContext.login badRequestServer sampleStringify sessionPage none
        "aisha@example.org" "pw" "STUDENT").page = sessionPage :=
  ⟨rfl, by decide,
    ((login_all_or_nothing badRequestServer sampleStringify sessionPage none
      "aisha@example.org" "pw" "STUDENT").2.1
        { status := some 400, error := some "Invalid credentials" } rfl (by decide)).1,
    ((login_all_or_nothing badRequestServer sampleStringify sessionPage none
      "aisha@example.org" "pw" "STUDENT").2.1
        { status := some 400, error := some "Invalid credentials" } rfl (by decide)).2.1⟩

/-- A login the server accepts stores the session. -/
theorem login_accepted_sample :
    (AuthContext.login welcomingServer sampleStringify sessionPage none
        "aisha@example.org" "pw" "STUDENT").result = .success sampleUser ∧
    (AuthContext.login welcomingServer sampleStringify sessionPage none
        "aisha@example.org" "pw" "STUDENT").page.localStorage
      = [("access_token", "a1"), ("refresh_token", "r1"), ("user", "Aisha")] := by
  have hapi := api_unfold welcomingServer sessionPage
    (AuthContext.loginRequest "aisha@example.org" "pw" "STUDENT")
  have hresp : welcomingServer.respond
        (requestInterceptor sessionPage
          (AuthContext.loginRequest "aisha@example.org" "pw" "STUDENT"))
      = .ok { user := sampleUser, access := "a1", refresh := "r1" } := rfl
  rw [hresp] at hapi
  simp only [] at hapi
  have hres : (api welcomingServer sessionPage
      (AuthContext.loginRequest "aisha@example.org" "pw" "STUDENT")).result
      = .ok { user := sampleUser, access := "a1", refresh := "r1" } := by rw [hapi]
  rw [login_of_ok welcomingServer sampleStringify sessionPage none
    "aisha@example.org" "pw" "STUDENT" _ hres, hapi]
  exact ⟨rfl, by decide⟩

/-- C11: each issue gets at most one status button, in the list and in the detail modal
alike, and its status is one step after the current one along
OPEN → IN_PROGRESS → RESOLVED → CLOSED; a CLOSED issue gets none.  `handleStatusUpdate`
sends exactly one `updateStatus` request, with the id and status it was given, followed by
a reload of the list when the update succeeded; so a click on an offered button sends one
`updateStatus` for this issue with the successor of its status, and no other status. -/
theorem issue_actions_forward (issue : Issue) :
    (Maintenance.listActions issue).length ≤ 1 ∧
    (Maintenance.modalActions true (some issue)).length ≤ 1 ∧
    (Maintenance.modalActions true (some issue)).map (fun a => a.newStatus)
      = (Maintenance.listActions issue).map (fun a => a.newStatus) ∧
    (∀ a ∈ Maintenance.listActions issue ++ Maintenance.modalActions true (some issue),
      issueSuccessor issue.status a.newStatus) ∧
    (issue.status = "CLOSED" →
      Maintenance.listActions issue = [] ∧
        Maintenance.modalActions true (some issue) = []) ∧
    (∀ ok id newStatus,
      Maintenance.handleStatusUpdate ok id newStatus
        = IssueRequest.updateStatus id newStatus
            :: (if ok = true then [IssueRequest.list] else [])) ∧
    (∀ ok, ∀ a ∈ Maintenance.listActions issue ++ Maintenance.modalActions true (some issue),
      Maintenance.onClick ok issue a
          = IssueRequest.updateStatus issue.id a.newStatus
              :: (if ok = true then [IssueRequest.list] else []) ∧
        issueSuccessor issue.status a.newStatus ∧
        (∀ id status, IssueRequest.updateStatus id status ∈ Maintenance.onClick ok issue a →
          id = issue.id ∧ issueSuccessor issue.status status)) := by
  have h01 : issueSuccessor "OPEN" "IN_PROGRESS" := ⟨0, by decide, by decide⟩
  have h12 : issueSuccessor "IN_PROGRESS" "RESOLVED" := ⟨1, by decide, by decide⟩
  have h23 : issueSuccessor "RESOLVED" "CLOSED" := ⟨2, by decide, by decide⟩
  have hsucc : ∀ a ∈ Maintenance.listActions issue
      ++ Maintenance.modalActions true (some issue), issueSuccessor issue.status a.newStatus := by
    intro a ha
    by_cases h1 : issue.status = "OPEN"
    · simp [Maintenance.modalActions, Maintenance.listActions, h1] at ha
      rcases ha with rfl | rfl
      all_goals (rw [h1]; exact h01)
    by_cases h2 : issue.status = "IN_PROGRESS"
    · simp [Maintenance.modalActions, Maintenance.listActions, h2] at ha
      rcases ha with rfl | rfl
      all_goals (rw [h2]; exact h12)
    by_cases h3 : issue.status = "RESOLVED"
    · simp [Maintenance.modalActions, Maintenance.listActions, h3] at ha
      rcases ha with rfl | rfl
      all_goals (rw [h3]; exact h23)
    simp [Maintenance.modalActions, Maintenance.listActions, h1, h2, h3] at ha
  refine ⟨?_, ?_, ?_, hsucc, ?_, ?_, ?_⟩
  · by_cases h1 : issue.status = "OPEN"
    · simp [Maintenance.listActions, h1]
    by_cases h2 : issue.status = "IN_PROGRESS"
    · simp [Maintenance.listActions, h2]
    by_cases h3 : issue.status = "RESOLVED"
    · simp [Maintenance.listActions, h3]
    simp [Maintenance.listActions, h1, h2, h3]
  · by_cases h1 : issue.status = "OPEN"
    · simp [Maintenance.modalActions, h1]
    by_cases h2 : issue.status = "IN_PROGRESS"
    · simp [Maintenance.modalActions, h2]
    by_cases h3 : issue.status = "RESOLVED"
    · simp [Maintenance.modalActions, h3]
    simp [Maintenance.modalActions, h1, h2, h3]
  · by_cases h1 : issue.status = "OPEN"
    · simp [Maintenance.modalActions, Maintenance.listActions, h1]
    by_cases h2 : issue.status = "IN_PROGRESS"
    · simp [Maintenance.modalActions, Maintenance.listActions, h2]
    by_cases h3 : issue.status = "RESOLVED"
    · simp [Maintenance.modalActions, Maintenance.listActions, h3]
    simp [Maintenance.modalActions, Maintenance.listActions, h1, h2, h3]
  · intro h
    simp [Maintenance.modalActions, Maintenance.listActions, h]
  · intro ok id newStatus
    cases ok <;> simp [Maintenance.handleStatusUpdate]
  · intro ok a ha
    refine ⟨?_, hsucc a ha, ?_⟩
    · cases ok <;> simp [Maintenance.onClick, Maintenance.handleStatusUpdate]
    · intro id status h
      have hs := hsucc a ha
      cases ok <;> simp [Maintenance.onClick, Maintenance.handleStatusUpdate] at h <;>
        exact ⟨h.1, h.2 ▸ hs⟩

theorem issue_actions_forward_witness :
    IssueAction.mk "Start Working" "IN_PROGRESS" ∈
        Maintenance.listActions openIssue ++ Maintenance.modalActions true (some openIssue) ∧
      Maintenance.onClick true openIssue (IssueAction.mk "Start Working" "IN_PROGRESS")
        = [IssueRequest.updateStatus openIssue.id "IN_PROGRESS", IssueRequest.list] ∧
      issueSuccessor openIssue.status "IN_PROGRESS" :=
  ⟨by decide,
    ((issue_actions_forward openIssue).2.2.2.2.2.2 true
      (IssueAction.mk "Start Working" "IN_PROGRESS") (by decide)).1,
    ((issue_actions_forward openIssue).2.2.2.2.2.2 true
      (IssueAction.mk "Start Working" "IN_PROGRESS") (by decide)).2.1⟩

/-- C14: a successful `markAsRead` keeps length and order, sets `is_read` on the
notifications with the given id, changes no other field and no other notification, and
is idempotent; a failed one leaves the list as it was. -/
theorem markAsRead_spec (id : Nat) (notifications : List Notification) :
    List.Forall₂
      (fun n m => m.id = n.id ∧ m.title = n.title ∧ m.message = n.message ∧
        m.created_at = n.created_at ∧ (n.id = id → m.is_read = true) ∧ (n.id ≠ id → m = n))
      notifications (Notifications.markAsRead true id notifications).1 ∧
    (Notifications.markAsRead true id notifications).1.length = notifications.length ∧
    (Notifications.markAsRead true id (Notifications.markAsRead true id notifications).1).1
      = (Notifications.markAsRead true id notifications).1 ∧
    (Notifications.markAsRead false id notifications).1 = notifications := by
  refine ⟨?_, ?_, ?_, ?_⟩
  · simp only [Notifications.markAsRead, if_true]
    rw [List.forall₂_map_right_iff, List.forall₂_same]
    intro n _
    by_cases h : n.id = id <;> simp [h]
  · simp [Notifications.markAsRead]
  · simp only [Notifications.markAsRead, if_true, List.map_map]
    apply List.map_congr_left
    intro n _
    by_cases h : n.id = id <;> simp [h]
  · simp [Notifications.markAsRead]

theorem markAsRead_spec_witness :
    (Notifications.markAsRead true 1 sampleNotifications).1.map (fun n => (n.id, n.is_read))
        = [(1, true), (2, true)] ∧
      (Notifications.markAsRead true 1 sampleNotifications).1.length
        = sampleNotifications.length :=
  ⟨by decide, (markAsRead_spec 1 sampleNotifications).2.1⟩

/-- C15: a successful `markAllAsRead` sets `is_read` on every notification and changes
nothing else, so that `unreadCount` is 0 and length and order are kept; it is idempotent,
and a later `markAsRead` on any id leaves the list as it is. -/
theorem markAllAsRead_spec (notifications : List Notification) (id : Nat) (serverOk : Bool) :
    List.Forall₂ (fun n m => m = { n with is_read := true })
      notifications (Notifications.markAllAsRead true notifications).1 ∧
    (Notifications.markAllAsRead true notifications).1.length = notifications.length ∧
    Notifications.unreadCount (Notifications.markAllAsRead true notifications).1 = 0 ∧
    (Notifications.markAllAsRead true (Notifications.markAllAsRead true notifications).1).1
      = (Notifications.markAllAsRead true notifications).1 ∧
    (Notifications.markAsRead serverOk id (Notifications.markAllAsRead true notifications).1).1
      = (Notifications.markAllAsRead true notifications).1 := by
  refine ⟨?_, ?_, ?_, ?_, ?_⟩
  · simp only [Notifications.markAllAsRead, if_true]
    rw [List.forall₂_map_right_iff, List.forall₂_same]
    intro n _
    rfl
  · simp [Notifications.markAllAsRead]
  · simp [Notifications.markAllAsRead, Notifications.unreadCount]
  · simp [Notifications.markAllAsRead]
  · cases serverOk
    · simp [Notifications.markAsRead]
    · simp only [Notifications.markAsRead, Notifications.markAllAsRead, if_true, List.map_map]
      apply List.map_congr_left
      intro n _
      by_cases h : n.id = id <;> simp [h]

/-- C16: the bookings offered in the issue report are the tasks of the response whose
status is ASSIGNED, IN_PROGRESS or COMPLETED, in the order of the response; PENDING,
WAITING_FOR_CLEANER and CANCELLED tasks are left out; `handleSubmit` sends no request when
no booking is selected or the description is empty. -/
theorem reportable_bookings (tasks bookings : List Booking)
    (createError : Option (Option String)) (formData : IssueForm) :
    ReportIssues.fetchBookings (some tasks) bookings
      = tasks.filter (fun b => decide
          (b.status = "ASSIGNED" ∨ b.status = "IN_PROGRESS" ∨ b.status = "COMPLETED")) ∧
    (∀ b, b ∈ ReportIssues.fetchBookings (some tasks) bookings ↔
      b ∈ tasks ∧
        (b.status = "ASSIGNED" ∨ b.status = "IN_PROGRESS" ∨ b.status = "COMPLETED")) ∧
    List.Sublist (ReportIssues.fetchBookings (some tasks) bookings) tasks ∧
    (∀ b ∈ ReportIssues.fetchBookings (some tasks) bookings,
      b.status ≠ "PENDING" ∧ b.status ≠ "WAITING_FOR_CLEANER" ∧ b.status ≠ "CANCELLED") ∧
    (formData.booking = "" ∨ formData.description = "" →
      (ReportIssues.handleSubmit createError formData).1 = []) := by
  have hmem : ∀ b, b ∈ ReportIssues.fetchBookings (some tasks) bookings ↔
      b ∈ tasks ∧
        (b.status = "ASSIGNED" ∨ b.status = "IN_PROGRESS" ∨ b.status = "COMPLETED") := by
    intro b
    simp [ReportIssues.fetchBookings, List.mem_filter]
  refine ⟨?_, hmem, ?_, ?_, ?_⟩
  · simp only [ReportIssues.fetchBookings]
    apply List.filter_congr
    intro b _
    simp
  · simp only [ReportIssues.fetchBookings]
    exact List.filter_sublist _
  · intro b hb
    rcases (hmem b).1 hb with ⟨-, h | h | h⟩ <;> rw [h] <;> decide
  · intro h
    rcases h with h | h
    · simp [ReportIssues.handleSubmit, h]
    · by_cases hb : formData.booking = "" <;> simp [ReportIssues.handleSubmit, h, hb]

theorem reportable_bookings_witness :
    (emptyIssueForm.booking = "" ∨ emptyIssueForm.description = "") ∧
      (ReportIssues.handleSubmit none emptyIssueForm).1 = [] ∧
      (ReportIssues.fetchBookings (some [pendingBooking, assignedBooking, completedUnpaid])
          []).map (fun b => b.id) = [8, 9] :=
  ⟨Or.inl rfl,
    (reportable_bookings [] [] none emptyIssueForm).2.2.2.2 (Or.inl rfl),
    by decide⟩

/-- C17: of two `accept` calls on the same PENDING booking, committed in either order,
exactly one succeeds and the other receives `AlreadyAssignedError`; the booking ends up
ASSIGNED to the cleaner whose call succeeded, namely the one committed first. -/
theorem accept_race (firstWins : Bool) (booking : ServerBooking) (a b : Nat)
    (hpending : booking.status = "PENDING") :
    (((acceptConcurrently firstWins booking a b).2.1 = .ok () ∧
        (acceptConcurrently firstWins booking a b).2.2 = .error .alreadyAssigned ∧
        (acceptConcurrently firstWins booking a b).1.assigned_cleaner = some a ∧
        firstWins = true) ∨
      ((acceptConcurrently firstWins booking a b).2.1 = .error .alreadyAssigned ∧
        (acceptConcurrently firstWins booking a b).2.2 = .ok () ∧
        (acceptConcurrently firstWins booking a b).1.assigned_cleaner = some b ∧
        firstWins = false)) ∧
    (acceptConcurrently firstWins booking a b).1.status = "ASSIGNED" := by
  cases firstWins <;> simp [acceptConcurrently, accept, hpending]

theorem accept_race_witness :
    pendingOnServer.status = "PENDING" ∧
      (acceptConcurrently true pendingOnServer 4 5).1
        = { status := "ASSIGNED", assigned_cleaner := some 4 } ∧
      (acceptConcurrently true pendingOnServer 4 5).1.status = "ASSIGNED" :=
  ⟨rfl, by decide, (accept_race true pendingOnServer 4 5 rfl).2⟩

/-- The block and room keys of `validateForm`, in terms of the two pattern tests. -/
theorem validateForm_location_keys (env : Browser) (formData : BookingForm) :
    ((validateForm env formData).1.hasKey "block" = false ↔
      blockPattern.test formData.block = true) ∧
    ((validateForm env formData).1.hasKey "room_number" = false ↔
      roomPattern.test formData.room_number = true) := by
  cases hb : blockPattern.test formData.block <;>
    cases hr : roomPattern.test formData.room_number <;>
    cases hd : dateLt (env.dateParse formData.preferred_date) (some env.today) <;>
    simp [validateForm, hb, hr, hd, ErrorMap.set, ErrorMap.hasKey, ErrorMap.keys]

/-- The block and room keys of `validateStudentForm`, in terms of the two pattern tests. -/
theorem validateStudentForm_location_keys (d : StudentData) :
    ((validateStudentForm d).1.hasKey "block" = false ↔ blockPattern.test d.block = true) ∧
    ((validateStudentForm d).1.hasKey "room_number" = false ↔
      roomPattern.test d.room_number = true) := by
  have hb := validateStudentForm_keys d "block"
  have hr := validateStudentForm_keys d "room_number"
  simp only [String.reduceEq, false_and, true_and, false_or, or_false] at hb hr
  constructor
  · cases h : blockPattern.test d.block <;> simp [h] at hb ⊢ <;> exact hb
  · cases h : roomPattern.test d.room_number <;> simp [h] at hr ⊢ <;> exact hr

/-- The profile form is submitted exactly when both pattern tests pass. -/
theorem profile_submits_iff (updateError : Option (Option String)) (formData : ProfileForm) :
    ProfileRequest.updateStudent formData ∈ (Profile.handleSubmit updateError formData).1 ↔
      blockPattern.test formData.block = true ∧
        roomPattern.test formData.room_number = true := by
  cases hb : blockPattern.test formData.block <;>
    cases hr : roomPattern.test formData.room_number <;>
    cases updateError <;>
    simp [Profile.handleSubmit, hb, hr]

/-- C19: the registration form, the booking form and the profile form accept the same
pairs (block, room_number): each reports no block or room error exactly when the block is
two digits and an uppercase letter and the room number is two digits, an uppercase letter,
`-`, two digits, `-`, two digits. -/
theorem location_checks_agree (block room_number : String) (env : Browser)
    (studentData : StudentData) (bookingForm : BookingForm) (profileForm : ProfileForm)
    (updateError : Option (Option String)) :
    (((validateStudentForm
          { studentData with block := block, room_number := room_number }).1.hasKey "block"
          = false ∧
        (validateStudentForm
          { studentData with block := block, room_number := room_number }).1.hasKey
            "room_number" = false) ↔
      IsBlockFormat block ∧ IsRoomFormat room_number) ∧
    (((validateForm env
          { bookingForm with block := block, room_number := room_number }).1.hasKey "block"
          = false ∧
        (validateForm env
          { bookingForm with block := block, room_number := room_number }).1.hasKey
            "room_number" = false) ↔
      IsBlockFormat block ∧ IsRoomFormat room_number) ∧
    (ProfileRequest.updateStudent
          { profileForm with block := block, room_number := room_number } ∈
        (Profile.handleSubmit updateError
          { profileForm with block := block, room_number := room_number }).1 ↔
      IsBlockFormat block ∧ IsRoomFormat room_number) := by
  refine ⟨?_, ?_, ?_⟩
  · rw [(validateStudentForm_location_keys _).1, (validateStudentForm_location_keys _).2,
      blockPattern_test_iff, roomPattern_test_iff]
  · rw [(validateForm_location_keys env _).1, (validateForm_location_keys env _).2,
      blockPattern_test_iff, roomPattern_test_iff]
  · rw [profile_submits_iff, blockPattern_test_iff, roomPattern_test_iff]

/-- A room number that passes the room pattern starts with three characters of the block
format followed by a hyphen. -/
theorem roomPattern_block_prefix (room_number : String)
    (h : roomPattern.test room_number = true) : HasBlockPrefix room_number := by
  obtain ⟨d₁, d₂, u, f₁, f₂, r₁, r₂, hs, h₁, h₂, h₃, -⟩ := (roomPattern_test_iff _).1 h
  unfold HasBlockPrefix
  rw [hs]
  exact ⟨⟨d₁, d₂, u, rfl, h₁, h₂, h₃⟩, rfl⟩

/-- C20 (counterexample): block `25E` with room number `11A-04-10` passes the block and
room checks of all three forms although the room number does not begin with the block. -/
theorem room_need_not_start_with_block :
    (validateForm clockEast mismatchedForm).1.hasKey "block" = false ∧
    (validateForm clockEast mismatchedForm).1.hasKey "room_number" = false ∧
    (validateForm clockEast mismatchedForm).2 = true ∧
    (validateStudentForm
      { sampleStudent with block := "25E", room_number := "11A-04-10" }).2 = true ∧
    (Profile.handleSubmit none
      { name := "Aisha", phone := "", block := "25E", room_number := "11A-04-10" }).1
      = [.updateStudent
          { name := "Aisha", phone := "", block := "25E", room_number := "11A-04-10" },
         .getStudent] ∧
    mismatchedForm.room_number.toList.take 3 ≠ mismatchedForm.block.toList := by
  refine ⟨by decide, by decide, by decide, by decide, by decide, by decide⟩

/-- C20 (amended): in a form that passes the block and room checks, the block has the
block format and the room number begins with three characters of the block format followed
by `-`; this holds for the booking form, the profile form and the registration form. -/
theorem room_prefix_has_block_format (env : Browser) (bookingForm : BookingForm)
    (profileForm : ProfileForm) (updateError : Option (Option String))
    (studentData : StudentData) :
    ((validateForm env bookingForm).1.hasKey "block" = false →
      (validateForm env bookingForm).1.hasKey "room_number" = false →
      IsBlockFormat bookingForm.block ∧ HasBlockPrefix bookingForm.room_number) ∧
    (ProfileRequest.updateStudent profileForm ∈
        (Profile.handleSubmit updateError profileForm).1 →
      IsBlockFormat profileForm.block ∧ HasBlockPrefix profileForm.room_number) ∧
    ((validateStudentForm studentData).1.hasKey "block" = false →
      (validateStudentForm studentData).1.hasKey "room_number" = false →
      IsBlockFormat studentData.block ∧ HasBlockPrefix studentData.room_number) := by
  refine ⟨?_, ?_, ?_⟩
  · intro hb hr
    exact ⟨(blockPattern_test_iff _).1 ((validateForm_location_keys env _).1.1 hb),
      roomPattern_block_prefix _ ((validateForm_location_keys env _).2.1 hr)⟩
  · intro h
    have := (profile_submits_iff updateError profileForm).1 h
    exact ⟨(blockPattern_test_iff _).1 this.1, roomPattern_block_prefix _ this.2⟩
  · intro hb hr
    exact ⟨(blockPattern_test_iff _).1 ((validateStudentForm_location_keys _).1.1 hb),
      roomPattern_block_prefix _ ((validateStudentForm_location_keys _).2.1 hr)⟩

theorem room_prefix_has_block_format_witness :
    (validateForm clockEast mismatchedForm).1.hasKey "block" = false ∧
      (validateForm clockEast mismatchedForm).1.hasKey "room_number" = false ∧
      IsBlockFormat mismatchedForm.block ∧ HasBlockPrefix mismatchedForm.room_number :=
  ⟨by decide, by decide,
    (room_prefix_has_block_format clockEast mismatchedForm
      { name := "Aisha", phone := "", block := "25E", room_number := "11A-04-10" } none
      sampleStudent).1 (by decide) (by decide)⟩

/-- C21 (the code's output): the last generated slot is `23:30`, half an hour after
`23:00`, so the generated slots do not end at `23:00`. -/
theorem timeSlots_end_after_2300 :
    timeSlots.getLast? = some "23:30" ∧
    "23:30" ∈ timeSlots ∧
    slotMinutes "23:00" < slotMinutes "23:30" ∧
    timeSlots.getLast? ≠ some "23:00" ∧
    ¬ (∀ slot ∈ timeSlots, slotMinutes slot ≤ slotMinutes "23:00") := by
  rw [timeSlots_eq]
  refine ⟨by decide, by decide, by decide, by decide, ?_⟩
  intro h
  exact absurd (h "23:30" (by decide)) (by decide)

/-- C27: the filter of `MyBookings.fetchBookings` keeps a booking exactly when its status
is not `CANCELLED`, whatever its payment status; the shown list keeps the order of the
response, holds no cancelled booking and keeps completed bookings that are paid. -/
theorem activeBookings_iff_not_cancelled (data : List Booking) :
    MyBookings.activeBookings data = data.filter (fun b => decide (b.status ≠ "CANCELLED")) ∧
    (∀ b, b ∈ MyBookings.activeBookings data ↔ b ∈ data ∧ b.status ≠ "CANCELLED") ∧
    List.Sublist (MyBookings.activeBookings data) data ∧
    (∀ b ∈ MyBookings.activeBookings data, b.status ≠ "CANCELLED") ∧
    (∀ b ∈ data, b.status = "COMPLETED" → b.payment_status = "PAID" →
      b ∈ MyBookings.activeBookings data) := by
  have hfilter : MyBookings.activeBookings data
      = data.filter (fun b => decide (b.status ≠ "CANCELLED")) := by
    unfold MyBookings.activeBookings
    apply List.filter_congr
    intro b _
    by_cases h : b.status = "CANCELLED"
    · simp [h]
    · simp [h]
  have hmem : ∀ b, b ∈ MyBookings.activeBookings data ↔ b ∈ data ∧ b.status ≠ "CANCELLED" := by
    intro b
    rw [hfilter]
    simp [List.mem_filter]
  refine ⟨hfilter, hmem, ?_, ?_, ?_⟩
  · rw [hfilter]
    exact List.filter_sublist _
  · intro b hb
    exact ((hmem b).1 hb).2
  · intro b hb hs _
    exact (hmem b).2 ⟨hb, by rw [hs]; decide⟩

theorem activeBookings_iff_not_cancelled_witness :
    completedPaid ∈ [cancelledBooking, completedPaid] ∧
      completedPaid.status = "COMPLETED" ∧ completedPaid.payment_status = "PAID" ∧
      completedPaid ∈ MyBookings.activeBookings [cancelledBooking, completedPaid] ∧
      (MyBookings.activeBookings [cancelledBooking, completedPaid]).map (fun b => b.id)
        = [11] :=
  ⟨by simp, rfl, rfl,
    (activeBookings_iff_not_cancelled [cancelledBooking, completedPaid]).2.2.2.2
      completedPaid (by simp) rfl rfl,
    by decide⟩

/-- C23 (counterexample): when the accept request fails, `handleAcceptTask` sends the
accept request and nothing else; the list of new requests is not fetched again. -/
theorem failed_accept_does_not_refetch :
    (NewRequests.handleAcceptTask (some (some "Booking already assigned")) 7).requests
      = [.acceptBooking 7] ∧
    CleanerRequest.newRequests ∉
      (NewRequests.handleAcceptTask (some (some "Booking already assigned")) 7).requests := by
  constructor <;> decide

/-- C23 (amended): when the accept request fails, the toast is an error that shows the
response's error text when it has a non-empty one and `Failed to accept task` otherwise,
`actionLoading` is false afterwards, and the handler sends the accept request only; the
list is fetched again by the handler only after a successful accept. -/
theorem failed_accept_is_reported (text : Option String) (taskId : Nat) :
    (NewRequests.handleAcceptTask (some text) taskId).toast.type = "error" ∧
    (∀ message, text = some message → message ≠ "" →
      (NewRequests.handleAcceptTask (some text) taskId).toast.message = message) ∧
    ((text = none ∨ text = some "") →
      (NewRequests.handleAcceptTask (some text) taskId).toast.message
        = "Failed to accept task") ∧
    (NewRequests.handleAcceptTask (some text) taskId).actionLoading = false ∧
    (NewRequests.handleAcceptTask none taskId).actionLoading = false ∧
    (NewRequests.handleAcceptTask (some text) taskId).requests = [.acceptBooking taskId] ∧
    (NewRequests.handleAcceptTask none taskId).requests
      = [.acceptBooking taskId, .newRequests] := by
  refine ⟨rfl, ?_, ?_, rfl, rfl, rfl, rfl⟩
  · intro message h hne
    simp [NewRequests.handleAcceptTask, h, truthy, hne]
  · intro h
    rcases h with h | h <;> simp [NewRequests.handleAcceptTask, h, truthy]

theorem failed_accept_is_reported_witness :
    (some "Booking already assigned" : Option String) = some "Booking already assigned" ∧
      "Booking already assigned" ≠ "" ∧
      (NewRequests.handleAcceptTask (some (some "Booking already assigned")) 7).toast.message
        = "Booking already assigned" :=
  ⟨rfl, by decide,
    (failed_accept_is_reported (some "Booking already assigned") 7).2.1
      "Booking already assigned" rfl (by decide)⟩

/-- Two tests that agree on the members of a list find the same member. -/
theorem find?_congr_mem {α : Type} (p q : α → Bool) (l : List α)
    (h : ∀ x ∈ l, p x = q x) : l.find? p = l.find? q := by
  induction l with
  | nil => rfl
  | cons a l ih =>
    have ha := h a (List.mem_cons_self _ _)
    have ih' := ih (fun x hx => h x (List.mem_cons_of_mem _ hx))
    simp only [List.find?_cons, ha, ih']

/-- A location that matches no fixed route is sent to `/`. -/
theorem resolve_unmatched (matcher : RouteMatcher)
    (hstar : ∀ pathname, matcher "*" pathname = true) (pathname : String)
    (h : ∀ route ∈ App.staticRoutes, matcher route.path pathname = false) :
    App.resolve matcher pathname = some (.navigate "/") := by
  have hnone : App.staticRoutes.find? (fun route => matcher route.path pathname) = none := by
    rw [List.find?_eq_none]
    intro route hroute
    simp [h route hroute]
  unfold App.resolve App.routes
  rw [List.find?_append, hnone]
  simp [App.catchAll, hstar]

/-- The location of a declared fixed route renders the element of that route. -/
theorem resolve_declared (matcher : RouteMatcher)
    (hfixed : ∀ r ∈ App.staticRoutes, ∀ q ∈ App.staticRoutes,
      (matcher r.path q.path = true ↔ r.path = q.path))
    (q : Route) (hq : q ∈ App.staticRoutes)
    (hfind : App.staticRoutes.find? (fun r => decide (r.path = q.path)) = some q) :
    App.resolve matcher q.path = some q.element := by
  have hcongr : App.staticRoutes.find? (fun r => matcher r.path q.path)
      = App.staticRoutes.find? (fun r => decide (r.path = q.path)) := by
    apply find?_congr_mem
    intro r hr
    rw [Bool.eq_iff_iff]
    simp [hfixed r hr q hq]
  unfold App.resolve App.routes
  rw [List.find?_append, hcongr, hfind]
  rfl

/-- C24: for each of the roles STUDENT, CLEANER and ADMIN the path `Login` navigates to is
a route declared in `App`, protected with exactly that role, and it is the route rendered
for that location; every route under `/student/`, `/cleaner/` or `/admin/` is protected
with exactly the role of its prefix; a location that the router matches to no declared
fixed path is redirected to `/`.  The router's matching is a parameter: `*` matches every
location and, among the declared paths, a fixed path matches exactly itself. -/
theorem dashboards_are_protected (matcher : RouteMatcher)
    (hstar : ∀ pathname, matcher "*" pathname = true)
    (hfixed : ∀ r ∈ App.staticRoutes, ∀ q ∈ App.staticRoutes,
      (matcher r.path q.path = true ↔ r.path = q.path)) :
    (Login.dashboardPath "STUDENT" = "/student/dashboard" ∧
      Login.dashboardPath "CLEANER" = "/cleaner/dashboard" ∧
      Login.dashboardPath "ADMIN" = "/admin/dashboard") ∧
    (Route.mk (Login.dashboardPath "STUDENT") (.protectedPage ["STUDENT"] "StudentDashboard")
        ∈ App.routes ∧
      Route.mk (Login.dashboardPath "CLEANER") (.protectedPage ["CLEANER"] "CleanerDashboard")
        ∈ App.routes ∧
      Route.mk (Login.dashboardPath "ADMIN") (.protectedPage ["ADMIN"] "AdminDashboard")
        ∈ App.routes) ∧
    (App.resolve matcher (Login.dashboardPath "STUDENT")
        = some (.protectedPage ["STUDENT"] "StudentDashboard") ∧
      App.resolve matcher (Login.dashboardPath "CLEANER")
        = some (.protectedPage ["CLEANER"] "CleanerDashboard") ∧
      App.resolve matcher (Login.dashboardPath "ADMIN")
        = some (.protectedPage ["ADMIN"] "AdminDashboard")) ∧
    (∀ r ∈ ["STUDENT", "CLEANER", "ADMIN"], ∀ route ∈ App.routes,
      route.path = Login.dashboardPath r → route.element.allowedRoles = some [r]) ∧
    (∀ route ∈ App.routes,
      (pathStartsWith "/student/" route.path = true →
        route.element.allowedRoles = some ["STUDENT"]) ∧
      (pathStartsWith "/cleaner/" route.path = true →
        route.element.allowedRoles = some ["CLEANER"]) ∧
      (pathStartsWith "/admin/" route.path = true →
        route.element.allowedRoles = some ["ADMIN"])) ∧
    (∀ pathname,
      (∀ route ∈ App.staticRoutes, matcher route.path pathname = false) →
        App.resolve matcher pathname = some (.navigate "/")) := by
  have hs : Login.dashboardPath "STUDENT" = "/student/dashboard" := by decide
  have hc : Login.dashboardPath "CLEANER" = "/cleaner/dashboard" := by decide
  have ha : Login.dashboardPath "ADMIN" = "/admin/dashboard" := by decide
  refine ⟨⟨hs, hc, ha⟩, by decide, ⟨?_, ?_, ?_⟩, by decide, by decide,
    resolve_unmatched matcher hstar⟩
  · rw [hs]
    exact resolve_declared matcher hfixed
      (Route.mk "/student/dashboard" (.protectedPage ["STUDENT"] "StudentDashboard"))
      (by decide) (by decide)
  · rw [hc]
    exact resolve_declared matcher hfixed
      (Route.mk "/cleaner/dashboard" (.protectedPage ["CLEANER"] "CleanerDashboard"))
      (by decide) (by decide)
  · rw [ha]
    exact resolve_declared matcher hfixed
      (Route.mk "/admin/dashboard" (.protectedPage ["ADMIN"] "AdminDashboard"))
      (by decide) (by decide)

/-- The sample matcher has the two properties asked of the router's matching. -/
theorem exactMatcher_properties :
    (∀ pathname, exactMatcher "*" pathname = true) ∧
    (∀ r ∈ App.staticRoutes, ∀ q ∈ App.staticRoutes,
      (exactMatcher r.path q.path = true ↔ r.path = q.path)) := by
  constructor
  · intro pathname
    simp [exactMatcher]
  · decide

theorem dashboards_are_protected_witness :
    (∀ pathname, exactMatcher "*" pathname = true) ∧
      (∀ r ∈ App.staticRoutes, ∀ q ∈ App.staticRoutes,
        (exactMatcher r.path q.path = true ↔ r.path = q.path)) ∧
      App.resolve exactMatcher (Login.dashboardPath "STUDENT")
        = some (.protectedPage ["STUDENT"] "StudentDashboard") ∧
      (∀ route ∈ App.staticRoutes, exactMatcher route.path "/teacher/dashboard" = false) ∧
      App.resolve exactMatcher "/teacher/dashboard" = some (.navigate "/") :=
  ⟨exactMatcher_properties.1, exactMatcher_properties.2,
    (dashboards_are_protected exactMatcher exactMatcher_properties.1
      exactMatcher_properties.2).2.2.1.1,
    by decide,
    (dashboards_are_protected exactMatcher exactMatcher_properties.1
      exactMatcher_properties.2).2.2.2.2.2 "/teacher/dashboard" (by decide)⟩

/-- For bookings of the types the booking form creates, both counts of
`getBookingTrends` are 0. -/
theorem bookingTrends_zero_of_form_types (bookings : List ReportBooking)
    (h : ∀ b ∈ bookings, b.booking_type = "STANDARD" ∨ b.booking_type = "DEEP") :
    Reports.getBookingTrends bookings = [("STANDARD_CLEANING", 0), ("DEEP_CLEANING", 0)] := by
  have h₁ : bookings.filter (fun b => b.booking_type == "STANDARD_CLEANING") = [] := by
    rw [List.filter_eq_nil_iff]
    intro b hb
    rcases h b hb with hs | hs <;> rw [hs] <;> decide
  have h₂ : bookings.filter (fun b => b.booking_type == "DEEP_CLEANING") = [] := by
    rw [List.filter_eq_nil_iff]
    intro b hb
    rcases h b hb with hs | hs <;> rw [hs] <;> decide
  simp [Reports.getBookingTrends, h₁, h₂]

/-- C22 (the code at the failing input): for one STANDARD and one DEEP booking
`getBookingTrends` reports 0 Standard Cleaning and 0 Deep Cleaning bookings. -/
theorem bookingTrends_miss_form_types :
    (∀ b ∈ stringPricedHistory, b.booking_type = "STANDARD" ∨ b.booking_type = "DEEP") ∧
    (stringPricedHistory.filter fun b => b.booking_type == "STANDARD").length = 1 ∧
    (stringPricedHistory.filter fun b => b.booking_type == "DEEP").length = 1 ∧
    Reports.getBookingTrends stringPricedHistory
      = [("STANDARD_CLEANING", 0), ("DEEP_CLEANING", 0)] ∧
    countOf (Reports.getBookingTrends stringPricedHistory) "STANDARD_CLEANING"
      + countOf (Reports.getBookingTrends stringPricedHistory) "DEEP_CLEANING"
      ≠ stringPricedHistory.length := by
  refine ⟨by decide, by decide, by decide, by decide, by decide⟩

/-- When every status is one of the five that `getStatusBreakdown` counts, the counts
add up to the number of bookings. -/
theorem statusBreakdown_sum_of_counted (bookings : List ReportBooking)
    (h : ∀ b ∈ bookings, b.status ∈
      ["PENDING", "ASSIGNED", "IN_PROGRESS", "COMPLETED", "CANCELLED"]) :
    ((Reports.getStatusBreakdown bookings).map Prod.snd).sum = bookings.length := by
  induction bookings with
  | nil => rfl
  | cons b bs ih =>
    have hb := h b (List.mem_cons_self _ _)
    have ih' := ih (fun x hx => h x (List.mem_cons_of_mem _ hx))
    simp only [Reports.getStatusBreakdown, List.map_cons, List.map_nil, List.sum_cons,
      List.sum_nil, List.length_cons] at ih' ⊢
    simp only [List.mem_cons, List.mem_singleton, List.not_mem_nil, or_false] at hb
    rcases hb with hs | hs | hs | hs | hs <;>
      simp [List.filter_cons, hs] <;> omega

/-- C28 (the code at the failing input): for a single booking that is
WAITING_FOR_CLEANER the counts of `getStatusBreakdown` add up to 0, not to 1, and every
row of the distribution shows 0 percent. -/
theorem statusBreakdown_misses_waiting :
    waitingRow.status ∈ bookingStatuses ∧
    Reports.getStatusBreakdown [waitingRow]
      = [("PENDING", 0), ("ASSIGNED", 0), ("IN_PROGRESS", 0), ("COMPLETED", 0),
         ("CANCELLED", 0)] ∧
    ((Reports.getStatusBreakdown [waitingRow]).map Prod.snd).sum = 0 ∧
    [waitingRow].length = 1 ∧
    (∀ entry ∈ Reports.getStatusBreakdown [waitingRow],
      Reports.statusPercentage [waitingRow] entry.2 = .finite 0) := by
  refine ⟨by decide, by decide, by decide, rfl, ?_⟩
  intro entry hentry
  have h0 : entry.2 = 0 := by
    have : Reports.getStatusBreakdown [waitingRow]
      = [("PENDING", 0), ("ASSIGNED", 0), ("IN_PROGRESS", 0), ("COMPLETED", 0),
         ("CANCELLED", 0)] := by decide
    rw [this] at hentry
    simp only [List.mem_cons, List.mem_singleton, List.not_mem_nil, or_false] at hentry
    rcases hentry with h | h | h | h | h <;> rw [h]
  rw [h0]
  simp [Reports.statusPercentage, JsNumber.ofNat, JsNumber.div, JsNumber.mul]

/-- For an empty list the three totals are the number 0. -/
theorem totals_of_empty (rt : JsRuntime) :
    MyHistory.totalEarnings rt [] = .num (.finite 0) ∧
    History.totalSpent rt [] = .finite 0 ∧
    Reports.calculateRevenue rt [] = .finite 0 := ⟨rfl, rfl, rfl⟩

/-- C25 (the code at the failing input): for two completed tasks priced `"20.00"` and
`"30.00"`, `totalEarnings` is the text of 0 followed by `20.0030.00`, a string, while
`totalSpent` and `calculateRevenue` are the number `0 + parseFloat("20.00") +
parseFloat("30.00")`. -/
theorem totalEarnings_concatenates_strings (rt : JsRuntime) :
    MyHistory.totalEarnings rt stringPricedHistory
      = .str (rt.numberToString (.finite 0) ++ "20.00" ++ "30.00") ∧
    History.totalSpent rt stringPricedHistory
      = ((JsNumber.finite 0).add (rt.parseFloat "20.00")).add (rt.parseFloat "30.00") ∧
    Reports.calculateRevenue rt stringPricedHistory
      = ((JsNumber.finite 0).add (rt.parseFloat "20.00")).add (rt.parseFloat "30.00") ∧
    MyHistory.totalEarnings rt stringPricedHistory
      ≠ .num (History.totalSpent rt stringPricedHistory) ∧
    MyHistory.totalEarnings rt stringPricedHistory
      ≠ .num (Reports.calculateRevenue rt stringPricedHistory) := by
  have h : MyHistory.totalEarnings rt stringPricedHistory
      = .str (rt.numberToString (.finite 0) ++ "20.00" ++ "30.00") := rfl
  refine ⟨h, rfl, rfl, ?_, ?_⟩
  · rw [h]
    intro hne
    cases hne
  · rw [h]
    intro hne
    cases hne

/-- A guarded percentage is never `NaN`. -/
theorem statusPercentage_defined (bookings : List ReportBooking) (count : Nat) :
    ∃ q : ℚ, Reports.statusPercentage bookings count = .finite q := by
  unfold Reports.statusPercentage
  by_cases h : bookings.length > 0
  · have hne : ((bookings.length : ℕ) : ℚ) ≠ 0 := by
      exact_mod_cast Nat.pos_iff_ne_zero.mp h
    simp [h, JsNumber.ofNat, JsNumber.div, JsNumber.mul, hne]
  · simp [h]

/-- A guarded completion rate is never `NaN`. -/
theorem completionRate_defined (data : Workload) :
    ∃ q : ℚ, Reports.completionRate data = .finite q := by
  unfold Reports.completionRate
  by_cases h : data.total > 0
  · have hne : ((data.total : ℕ) : ℚ) ≠ 0 := by
      exact_mod_cast Nat.pos_iff_ne_zero.mp h
    simp [h, JsNumber.ofNat, JsNumber.div, JsNumber.mul, hne]
  · simp [h]

/-- Without a completed booking the average price shown is 0. -/
theorem averagePrice_no_completed (rt : JsRuntime) (bookings : List ReportBooking)
    (h : ∀ b ∈ bookings, b.status ≠ "COMPLETED") :
    Reports.averagePrice rt bookings = .finite 0 := by
  have hnil : bookings.filter (fun b => b.status == "COMPLETED") = [] := by
    rw [List.filter_eq_nil_iff]
    intro b hb
    simpa using h b hb
  unfold Reports.averagePrice
  by_cases hlen : bookings.length > 0
  · simp [hlen, Reports.calculateRevenue, Reports.getStatusBreakdown, countOf, hnil,
      List.lookup, JsNumber.ofNat, JsNumber.div, JsNumber.orZero, JsNumber.truthy]
  · simp [hlen]

/-- C29 (the code at the failing input): for an empty bookings list the two service-type
bar widths are `NaN`, the result of `0 / 0`, while the status percentages, the average
price and the completion rates are 0. -/
theorem typeBarWidth_nan_of_empty (rt : JsRuntime) (cleaner : Cleaner) (count : Nat) :
    Reports.typeBarWidth [] "STANDARD_CLEANING" = .nan ∧
    Reports.typeBarWidth [] "DEEP_CLEANING" = .nan ∧
    Reports.statusPercentage [] count = .finite 0 ∧
    Reports.averagePrice rt [] = .finite 0 ∧
    Reports.completionRate (Reports.workloadOf [] cleaner) = .finite 0 := by
  refine ⟨?_, ?_, rfl, rfl, rfl⟩
  · simp [Reports.typeBarWidth, Reports.getBookingTrends, countOf, List.lookup,
      JsNumber.ofNat, JsNumber.div, JsNumber.mul]
  · simp [Reports.typeBarWidth, Reports.getBookingTrends, countOf, List.lookup,
      JsNumber.ofNat, JsNumber.div, JsNumber.mul]

/-- A text without the separator is one piece. -/
theorem splitChars_of_not_mem (sep : Char) (cs : List Char) (h : sep ∉ cs) :
    splitChars sep cs = [cs] := by
  induction cs with
  | nil => rfl
  | cons c cs ih =>
    have hc : c ≠ sep := fun e => h (by simp [e])
    have hcs : sep ∉ cs := fun e => h (List.mem_cons_of_mem _ e)
    simp [splitChars, hc, ih hcs]

/-- Splitting cuts at the first separator. -/
theorem splitChars_append (sep : Char) (piece rest : List Char) (h : sep ∉ piece) :
    splitChars sep (piece ++ sep :: rest) = piece :: splitChars sep rest := by
  induction piece with
  | nil => simp [splitChars]
  | cons c cs ih =>
    have hc : c ≠ sep := fun e => h (by simp [e])
    have hcs : sep ∉ cs := fun e => h (List.mem_cons_of_mem _ e)
    simp [splitChars, hc, ih hcs]

/-- Splitting undoes joining when no part contains the separator. -/
theorem splitChars_joinChars (sep : Char) (parts : List (List Char)) (hne : parts ≠ [])
    (h : ∀ part ∈ parts, sep ∉ part) :
    splitChars sep (joinChars [sep] parts) = parts := by
  induction parts with
  | nil => exact absurd rfl hne
  | cons part rest ih =>
    cases rest with
    | nil => exact splitChars_of_not_mem sep part (h part (List.mem_cons_self _ _))
    | cons next rest =>
      have hpart := h part (List.mem_cons_self _ _)
      have ih' := ih (by simp) (fun x hx => h x (List.mem_cons_of_mem _ hx))
      simp only [joinChars, List.append_assoc, List.singleton_append]
      rw [splitChars_append sep part _ hpart, ih']

/-- A character that occurs neither in the separator nor in a part does not occur in the
joined text. -/
theorem not_mem_joinChars (c : Char) (sep : List Char) (parts : List (List Char))
    (hsep : c ∉ sep) (h : ∀ part ∈ parts, c ∉ part) : c ∉ joinChars sep parts := by
  induction parts with
  | nil => simp [joinChars]
  | cons part rest ih =>
    cases rest with
    | nil => simpa [joinChars] using h part (List.mem_cons_self _ _)
    | cons next rest =>
      have hpart := h part (List.mem_cons_self _ _)
      have ih' := ih (fun x hx => h x (List.mem_cons_of_mem _ hx))
      simp only [joinChars, List.mem_append, not_or]
      exact ⟨⟨hpart, hsep⟩, ih'⟩

/-- On strings: `split` undoes `join` when no part contains the separator. -/
theorem split_join (sep : Char) (parts : List String) (hne : parts ≠ [])
    (h : ∀ part ∈ parts, sep ∉ part.toList) :
    split (join parts (String.singleton sep)) sep = parts := by
  unfold split join
  have hs : (String.singleton sep).toList = [sep] := rfl
  rw [hs]
  show (splitChars sep (joinChars [sep] (parts.map String.toList))).map String.mk = parts
  rw [splitChars_joinChars sep _ (by simpa using hne) (by
    intro part hpart
    obtain ⟨p, hp, rfl⟩ := List.mem_map.1 hpart
    exact h p hp)]
  rw [List.map_map]
  conv_rhs => rw [← List.map_id parts]
  apply List.map_congr_left
  intro p _
  rfl

/-- C26 (counterexample): the row of a booking whose student name is `Tan, Mei` splits
on `,` into ten fields, so that the name fills two columns and every later value stands
one column to the right of its header. -/
theorem csv_row_with_comma_has_ten_fields :
    split (join (Reports.row sampleRuntime commaNameRow) ",") ','
      = ["5", "Tan", " Mei", "25E - 25E-04-10", "DEEP", "2025-06-01", "10:00", "PENDING",
         "N/A", "30.00"] ∧
    (split (join (Reports.row sampleRuntime commaNameRow) ",") ',').length = 10 ∧
    (split (Reports.csvContent sampleRuntime [commaNameRow]) '\n').length = 2 := by
  refine ⟨by decide, by decide, by decide⟩

/-- C26 (amended): when no cell of any booking contains a comma or a line break, the CSV
text splits on line breaks into the header line followed by one line per booking in list
order, the header and every booking line split on `,` into exactly the nine cells of the
header or of the booking, and the Cleaner cell is `N/A` when the booking has no (non-empty)
assigned cleaner name and the name otherwise. -/
theorem csv_well_formed (rt : JsRuntime) (bookings : List ReportBooking)
    (h : ∀ b ∈ bookings, ∀ cell ∈ Reports.row rt b,
      ',' ∉ cell.toList ∧ '\n' ∉ cell.toList) :
    split (Reports.csvContent rt bookings) '\n'
      = join Reports.headers "," :: bookings.map (fun b => join (Reports.row rt b) ",") ∧
    (split (Reports.csvContent rt bookings) '\n').length = bookings.length + 1 ∧
    split (join Reports.headers ",") ',' = Reports.headers ∧
    Reports.headers.length = 9 ∧
    (∀ b ∈ bookings,
      split (join (Reports.row rt b) ",") ',' = Reports.row rt b ∧
        (Reports.row rt b).length = 9) ∧
    (∀ b : ReportBooking,
      (truthy b.assigned_cleaner_name = false → (Reports.row rt b)[7]? = some "N/A") ∧
      (∀ name, b.assigned_cleaner_name = some name → name ≠ "" →
        (Reports.row rt b)[7]? = some name)) := by
  have hcomma : ("," : String) = String.singleton ',' := rfl
  have hbreak : ("\n" : String) = String.singleton '\n' := rfl
  have hlines : split (Reports.csvContent rt bookings) '\n' = Reports.csvLines rt bookings := by
    unfold Reports.csvContent
    rw [hbreak]
    apply split_join
    · simp [Reports.csvLines]
    · intro line hline
      simp only [Reports.csvLines, List.mem_cons, List.mem_map] at hline
      rcases hline with rfl | ⟨b, hb, rfl⟩
      · decide
      · unfold join
        show '\n' ∉ joinChars ",".toList ((Reports.row rt b).map String.toList)
        apply not_mem_joinChars
        · decide
        · intro part hpart
          obtain ⟨cell, hcell, rfl⟩ := List.mem_map.1 hpart
          exact (h b hb cell hcell).2
  refine ⟨hlines, ?_, ?_, rfl, ?_, ?_⟩
  · rw [hlines]
    simp [Reports.csvLines]
  · decide
  · intro b hb
    refine ⟨?_, rfl⟩
    rw [hcomma]
    apply split_join
    · simp [Reports.row]
    · intro cell hcell
      exact (h b hb cell hcell).1
  · intro b
    constructor
    · intro hn
      simp [Reports.row, hn]
    · intro name hname hne
      simp [Reports.row, hname, truthy, hne]

theorem csv_well_formed_witness :
    (∀ b ∈ stringPricedHistory, ∀ cell ∈ Reports.row sampleRuntime b,
      ',' ∉ cell.toList ∧ '\n' ∉ cell.toList) ∧
    split (Reports.csvContent sampleRuntime stringPricedHistory) '\n'
      = join Reports.headers "," ::
          stringPricedHistory.map (fun b => join (Reports.row sampleRuntime b) ",") :=
  ⟨by decide, (csv_well_formed sampleRuntime stringPricedHistory (by decide)).1⟩

/-- The CSV text of the two sample bookings. -/
theorem csv_sample :
    Reports.csvContent sampleRuntime stringPricedHistory
      = "ID,Student,Room,Type,Date,Time,Status,Cleaner,Price\n"
        ++ "1,Aisha,25E - 25E-04-10,STANDARD,2025-06-01,10:00,COMPLETED,Siti,20.00\n"
        ++ "2,Aisha,25E - 25E-04-10,DEEP,2025-06-01,10:00,COMPLETED,Siti,30.00" := by
  rfl

end FYear
